import Mathlib

/-
  Verification of the Mano-machine simulator core
  (simulator/registers.py, simulator/memory.py, simulator/instruction_set.py,
  simulator/machine.py) against its natural-language specification.

  The Python classes are shallowly embedded: mutation becomes explicit state
  passing, Python ints become Nat/Int with explicit reduction modulo 2^w where
  the code masks, and exceptions become Except values.
-/

set_option maxHeartbeats 1000000

namespace Mano

/-- One storage cell (`simulator/registers.py`, class `Register`): a named,
fixed-bit-width unsigned value with an `updated` marker.  Python's
`val & self._mask` with `_mask = (1 << bits) - 1` is modelled as reduction
modulo `2 ^ bits`; `load` takes an `Int` because Python callers may pass a
negative int (`~AC` in CMA), and Python's `&` on two's-complement integers
by a mask `2 ^ w - 1` is exactly `Int.emod` by `2 ^ w`. -/
structure Register where
  name : String
  bits : Nat
  value : Nat
  updated : Bool

def Register.init (name : String) (bits : Nat) : Register :=
  { name := name, bits := bits, value := 0, updated := false }

/-- `Register.load`: store `val & mask` and mark as updated. -/
def Register.load (r : Register) (v : Int) : Register :=
  { r with value := (v % ((2 ^ r.bits : Nat) : Int)).toNat, updated := true }

/-- `Register.increment`: add 1 modulo `2 ^ bits` and mark as updated. -/
def Register.increment (r : Register) : Register :=
  { r with value := (r.value + 1) % 2 ^ r.bits, updated := true }

/-- `Register.clear`: store 0 and mark as updated. -/
def Register.clear (r : Register) : Register :=
  { r with value := 0, updated := true }

/-- `Register.reset_state`: clear the `updated` marker. -/
def Register.reset_state (r : Register) : Register :=
  { r with updated := false }

/-- 1-bit flag (`simulator/registers.py`, class `Flag`). -/
structure Flag where
  name : String
  value : Nat
  updated : Bool

def Flag.init (name : String) : Flag :=
  { name := name, value := 0, updated := false }

def Flag.set (f : Flag) : Flag :=
  { f with value := 1, updated := true }

def Flag.clear (f : Flag) : Flag :=
  { f with value := 0, updated := true }

/-- `Flag.complement`: `value = 1 - value`. -/
def Flag.complement (f : Flag) : Flag :=
  { f with value := 1 - f.value, updated := true }

def Flag.reset_state (f : Flag) : Flag :=
  { f with updated := false }

/-- The operations of the `Register` contract, used to state the
all-operations invariant of the spec's data-model table. -/
inductive RegOp where
  | load (v : Int)
  | increment
  | clear
  | resetState

def Register.applyOp (r : Register) : RegOp → Register
  | RegOp.load v => r.load v
  | RegOp.increment => r.increment
  | RegOp.clear => r.clear
  | RegOp.resetState => r.reset_state

/-- 4096 x 16 main memory (`simulator/memory.py`, class `Memory`); the Python
list is modelled as a function from addresses to words. -/
structure Memory where
  size : Nat
  data : Nat → Nat
  reads : Nat
  writes : Nat

def Memory.init : Memory :=
  { size := 4096, data := fun _ => 0, reads := 0, writes := 0 }

/-- `Memory._mask_addr`: `addr & 0xFFF` = `addr % 4096`. -/
def Memory.mask_addr (addr : Nat) : Nat := addr % 4096

/-- `Memory.read`: mask the address, count the read, return the word. -/
def Memory.read (mem : Memory) (addr : Nat) : Memory × Nat :=
  ({ mem with reads := mem.reads + 1 }, mem.data (Memory.mask_addr addr))

/-- `Memory.write`: mask address and value (`value & 0xFFFF` = `% 65536`),
count the write, store the word. -/
def Memory.write (mem : Memory) (addr value : Nat) : Memory :=
  let a := Memory.mask_addr addr
  { mem with
    data := fun x => if x = a then value % 65536 else mem.data x
    writes := mem.writes + 1 }

/-- Python whitespace as recognized by `str.strip` / `str.split`. -/
def isPySpace (c : Char) : Bool :=
  c = ' ' ∨ c = '\t' ∨ c = '\n' ∨ c = '\r' ∨ c = '\x0b' ∨ c = '\x0c'

/-- `line.strip()`: drop leading and trailing whitespace. -/
def pyStrip (cs : List Char) : List Char :=
  ((cs.dropWhile isPySpace).reverse.dropWhile isPySpace).reverse

/-- `line.replace(":", " ")`: both pattern and replacement are single
characters, so the replacement is a character map. -/
def replaceColonBySpace (cs : List Char) : List Char :=
  cs.map fun c => if c = ':' then ' ' else c

/-- Helper for `str.split()`: accumulate the current token (reversed). -/
def pySplitAux : List Char → List Char → List (List Char)
  | [], acc => if acc = [] then [] else [acc.reverse]
  | c :: rest, acc =>
    if isPySpace c then
      if acc = [] then pySplitAux rest []
      else acc.reverse :: pySplitAux rest []
    else pySplitAux rest (c :: acc)

/-- `s.split()` with no argument: split on runs of whitespace, no empty
tokens. -/
def pySplit (cs : List Char) : List (List Char) :=
  pySplitAux cs []

def isHexDigitChar (c : Char) : Bool :=
  ('0' ≤ c ∧ c ≤ '9') ∨ ('a' ≤ c ∧ c ≤ 'f') ∨ ('A' ≤ c ∧ c ≤ 'F')

def hexDigitVal (c : Char) : Nat :=
  if '0' ≤ c ∧ c ≤ '9' then c.toNat - 48
  else if 'a' ≤ c ∧ c ≤ 'f' then c.toNat - 87
  else c.toNat - 55

/-- Hex digits possibly separated by single underscores (PEP 515), after the
first digit has been consumed. -/
def hexGroupsAux : List Char → Nat → Option Nat
  | [], acc => some acc
  | '_' :: c :: rest, acc =>
    if isHexDigitChar c then hexGroupsAux rest (acc * 16 + hexDigitVal c) else none
  | '_' :: [], _ => none
  | c :: rest, acc =>
    if isHexDigitChar c then hexGroupsAux rest (acc * 16 + hexDigitVal c) else none

/-- A nonempty run of hex digits (with optional single underscores between
digits); the first character must be a digit. -/
def hexDigitsRun : List Char → Option Nat
  | [] => none
  | c :: rest => if isHexDigitChar c then hexGroupsAux rest (hexDigitVal c) else none

/-- The part of `int(s, 16)` after an optional sign: an optional `0x`/`0X`
prefix (an extra single underscore may follow the prefix), then digits. -/
def hexBody : List Char → Option Nat
  | '0' :: 'x' :: rest =>
    (match rest with
     | '_' :: rest2 => hexDigitsRun rest2
     | _ => hexDigitsRun rest)
  | '0' :: 'X' :: rest =>
    (match rest with
     | '_' :: rest2 => hexDigitsRun rest2
     | _ => hexDigitsRun rest)
  | cs => hexDigitsRun cs

/-- Python `int(s, 16)`: strip whitespace, optional sign, `0x` prefix,
case-insensitive hex digits with PEP 515 underscores; `none` models the
`ValueError` raised on an invalid literal. -/
def pyIntHex (s : List Char) : Option Int :=
  match pyStrip s with
  | '+' :: rest => (hexBody rest).map fun n => (n : Int)
  | '-' :: rest => (hexBody rest).map fun n => -(n : Int)
  | rest => (hexBody rest).map fun n => (n : Int)

/-- The `ValueError` message raised by `int(tok, 16)` on a bad literal. -/
def errInvalid (tok : List Char) : String :=
  String.mk (("invalid literal for int() with base 16: ".data) ++ tok)

/-- The record loop of `Memory.load_file`, over the remaining lines, carrying
the lowest address seen so far.  An uncaught `ValueError` from `int(..., 16)`
becomes `Except.error`, returned together with the memory as mutated so far
(the Python memory is mutated in place, so earlier records stay loaded). -/
def Memory.loadLinesGo : Memory → Option Nat → List (List Char) → Memory × Except String (Option Nat)
  | mem, lowest, [] => (mem, Except.ok lowest)
  | mem, lowest, line :: rest =>
    let l := pyStrip line
    if l = [] ∨ l.head? = some '#' ∨ l.head? = some ';' then
      Memory.loadLinesGo mem lowest rest
    else
      match pySplit (replaceColonBySpace l) with
      | t0 :: t1 :: _ =>
        (match pyIntHex t0 with
         | none => (mem, Except.error (errInvalid t0))
         | some addr =>
           match pyIntHex t1 with
           | none => (mem, Except.error (errInvalid t1))
           | some v =>
             if 0 ≤ addr ∧ addr < (mem.size : Int) then
               let a := addr.toNat
               let mem2 := { mem with
                 data := fun x => if x = a then (v % 65536).toNat else mem.data x }
               let lowest2 := match lowest with
                 | none => some a
                 | some lo => if a < lo then some a else some lo
               Memory.loadLinesGo mem2 lowest2 rest
             else Memory.loadLinesGo mem lowest rest)
      | _ => Memory.loadLinesGo mem lowest rest

/-- `Memory.load_file`: `none` as source models a missing file
(`FileNotFoundError` is caught and turned into result `None`); otherwise the
lines of the file are processed in order.  Note the loader stores words
directly into `data` without touching the write counter, exactly as the
Python assigns `self.data[addr]` rather than calling `write`. -/
def Memory.load_file (mem : Memory) (source : Option (List String)) :
    Memory × Except String (Option Nat) :=
  match source with
  | none => (mem, Except.ok none)
  | some lines => Memory.loadLinesGo mem none (lines.map String.data)

/-- Uppercase hex digit of `d < 16` (`'0'..'9'`, `'A'..'F'`). -/
def hexDigitUpper (d : Nat) : Char :=
  if d < 10 then Char.ofNat (48 + d) else Char.ofNat (55 + d)

/-- Hex digits of `n` (most significant first), with recursion fuel. -/
def hexRepAux : Nat → Nat → List Char
  | 0, _ => []
  | fuel + 1, n => if n = 0 then [] else hexRepAux fuel (n / 16) ++ [hexDigitUpper (n % 16)]

/-- Python `f"{a:03X}"`: uppercase hex, zero-padded to at least 3 digits. -/
def toHex3 (n : Nat) : String :=
  let ds := if n = 0 then ['0'] else hexRepAux 8 n
  String.mk (List.replicate (3 - ds.length) '0' ++ ds)

/-- The memory-cell tag `f"M[{addr:03X}]"` reported in a changed set. -/
def memTag (a : Nat) : String :=
  "M[" ++ toHex3 a ++ "]"

/-- The whole machine state (`simulator/machine.py`, class `Machine`):
registers, flags, memory and the profiler counters. -/
structure Machine where
  AR : Register
  PC : Register
  DR : Register
  AC : Register
  IR : Register
  TR : Register
  SC : Register
  E : Flag
  I : Flag
  S : Flag
  R : Flag
  IEN : Flag
  FGI : Flag
  FGO : Flag
  memory : Memory
  total_cycles : Nat
  instr_count : Nat

/-- `Machine.__init__`: all registers and flags zeroed, then `S.set()`. -/
def Machine.init : Machine where
  AR := Register.init "AR" 12
  PC := Register.init "PC" 12
  DR := Register.init "DR" 16
  AC := Register.init "AC" 16
  IR := Register.init "IR" 16
  TR := Register.init "TR" 16
  SC := Register.init "SC" 4
  E := Flag.init "E"
  I := Flag.init "I"
  S := (Flag.init "S").set
  R := Flag.init "R"
  IEN := Flag.init "IEN"
  FGI := Flag.init "FGI"
  FGO := Flag.init "FGO"
  memory := Memory.init
  total_cycles := 0
  instr_count := 0

/-- `Machine.finish_instruction`: reset SC and bump the instruction counter. -/
def Machine.finish_instruction (m : Machine) : Machine :=
  { m with SC := m.SC.clear, instr_count := m.instr_count + 1 }

/-- `Machine._reset_updates`: clear the `updated` marker on every register and
flag at the start of each cycle. -/
def Machine.reset_updates (m : Machine) : Machine :=
  { m with
    AR := m.AR.reset_state, PC := m.PC.reset_state, DR := m.DR.reset_state
    AC := m.AC.reset_state, IR := m.IR.reset_state, TR := m.TR.reset_state
    SC := m.SC.reset_state
    E := m.E.reset_state, I := m.I.reset_state, S := m.S.reset_state
    R := m.R.reset_state, IEN := m.IEN.reset_state, FGI := m.FGI.reset_state
    FGO := m.FGO.reset_state }

/-- The bit widths `Machine.__init__` gives each register; symbolic theorems
about an arbitrary machine state assume them. -/
def Machine.wfBits (m : Machine) : Prop :=
  m.AR.bits = 12 ∧ m.PC.bits = 12 ∧ m.DR.bits = 16 ∧ m.AC.bits = 16 ∧
  m.IR.bits = 16 ∧ m.TR.bits = 16 ∧ m.SC.bits = 4

instance (m : Machine) : Decidable m.wfBits := by
  unfold Machine.wfBits; infer_instance

namespace InstructionSet

/-- `_mem_AND`: T-states of the AND instruction (by effective T-state). -/
def mem_AND (m : Machine) (effT T : Nat) : Machine × String × List String :=
  if effT = 3 then
    let rd := m.memory.read m.AR.value
    ({ m with memory := rd.1, DR := m.DR.load (rd.2 : Nat), SC := m.SC.increment },
     "T" ++ toString T ++ ": DR ← M[AR]", [])
  else if effT = 4 then
    let m2 := { m with AC := m.AC.load ((m.AC.value &&& m.DR.value : Nat) : Int) }
    (m2.finish_instruction, "T" ++ toString T ++ ": AC ← AC ∧ DR", [])
  else (m, "T" ++ toString T ++ ": (no-op for AND)", [])

/-- `_mem_ADD`: AC gets the masked sum, E the carry out of bit 15. -/
def mem_ADD (m : Machine) (effT T : Nat) : Machine × String × List String :=
  if effT = 3 then
    let rd := m.memory.read m.AR.value
    ({ m with memory := rd.1, DR := m.DR.load (rd.2 : Nat), SC := m.SC.increment },
     "T" ++ toString T ++ ": DR ← M[AR]", [])
  else if effT = 4 then
    let result := m.AC.value + m.DR.value
    let m2 := { m with AC := m.AC.load (result : Nat) }
    let m3 := if result > 0xFFFF then { m2 with E := m2.E.set } else { m2 with E := m2.E.clear }
    (m3.finish_instruction, "T" ++ toString T ++ ": AC ← AC + DR, E ← carry", [])
  else (m, "T" ++ toString T ++ ": (no-op for ADD)", [])

/-- `_mem_LDA`. -/
def mem_LDA (m : Machine) (effT T : Nat) : Machine × String × List String :=
  if effT = 3 then
    let rd := m.memory.read m.AR.value
    ({ m with memory := rd.1, DR := m.DR.load (rd.2 : Nat), SC := m.SC.increment },
     "T" ++ toString T ++ ": DR ← M[AR]", [])
  else if effT = 4 then
    let m2 := { m with AC := m.AC.load (m.DR.value : Nat) }
    (m2.finish_instruction, "T" ++ toString T ++ ": AC ← DR", [])
  else (m, "T" ++ toString T ++ ": (no-op for LDA)", [])

/-- `_mem_STA`: writes memory and finishes in the same effective T-state. -/
def mem_STA (m : Machine) (effT T : Nat) : Machine × String × List String :=
  if effT = 3 then
    let m2 := { m with memory := m.memory.write m.AR.value m.AC.value }
    (m2.finish_instruction, "T" ++ toString T ++ ": M[AR] ← AC", [memTag m.AR.value])
  else (m, "T" ++ toString T ++ ": (no-op for STA)", [])

/-- `_mem_BUN`. -/
def mem_BUN (m : Machine) (effT T : Nat) : Machine × String × List String :=
  if effT = 3 then
    let m2 := { m with PC := m.PC.load (m.AR.value : Nat) }
    (m2.finish_instruction, "T" ++ toString T ++ ": PC ← AR", [])
  else (m, "T" ++ toString T ++ ": (no-op for BUN)", [])

/-- `_mem_BSA`: store return address, then jump to AR + 1. -/
def mem_BSA (m : Machine) (effT T : Nat) : Machine × String × List String :=
  if effT = 3 then
    ({ m with memory := m.memory.write m.AR.value m.PC.value, SC := m.SC.increment },
     "T" ++ toString T ++ ": M[AR] ← PC", [memTag m.AR.value])
  else if effT = 4 then
    let m2 := { m with PC := m.PC.load ((m.AR.value + 1 : Nat) : Int) }
    (m2.finish_instruction, "T" ++ toString T ++ ": PC ← AR + 1", [])
  else (m, "T" ++ toString T ++ ": (no-op for BSA)", [])

/-- `_mem_ISZ`: increment the fetched word; skip the next instruction when
the post-increment DR is zero. -/
def mem_ISZ (m : Machine) (effT T : Nat) : Machine × String × List String :=
  if effT = 3 then
    let rd := m.memory.read m.AR.value
    ({ m with memory := rd.1, DR := m.DR.load (rd.2 : Nat), SC := m.SC.increment },
     "T" ++ toString T ++ ": DR ← M[AR]", [])
  else if effT = 4 then
    ({ m with DR := m.DR.load ((m.DR.value + 1 : Nat) : Int), SC := m.SC.increment },
     "T" ++ toString T ++ ": DR ← DR + 1", [])
  else if effT = 5 then
    let m2 := { m with memory := m.memory.write m.AR.value m.DR.value }
    let m3 := if m2.DR.value = 0 then { m2 with PC := m2.PC.increment } else m2
    let micro := "T" ++ toString T ++ ": M[AR] ← DR" ++
      (if m2.DR.value = 0 then "; if DR = 0 then PC ← PC + 1" else "")
    let changed := [memTag m.AR.value] ++ (if m2.DR.value = 0 then ["PC"] else [])
    (m3.finish_instruction, micro, changed)
  else (m, "T" ++ toString T ++ ": (no-op for ISZ)", [])

/-- `execute_memory_ref`: resolve the indirect address at T3 when I = 1,
otherwise dispatch on the opcode with `effT = T` (direct) or `T - 1`
(indirect). -/
def execute_memory_ref (m : Machine) (opcode T : Nat) : Machine × String × List String :=
  if m.I.value = 1 ∧ T = 3 then
    let rd := m.memory.read m.AR.value
    ({ m with memory := rd.1, AR := m.AR.load (rd.2 : Nat), SC := m.SC.increment },
     "T3: AR <- M[AR](0-11) (indirect)", [])
  else
    let effT := if m.I.value = 0 then T else T - 1
    if opcode = 0 then mem_AND m effT T
    else if opcode = 1 then mem_ADD m effT T
    else if opcode = 2 then mem_LDA m effT T
    else if opcode = 3 then mem_STA m effT T
    else if opcode = 4 then mem_BUN m effT T
    else if opcode = 5 then mem_BSA m effT T
    else if opcode = 6 then mem_ISZ m effT T
    else (m, "T" ++ toString T ++ ": (unknown memory-reference opcode)", [])

/-- `IR[n]` of the low 12 bits: `(instr >> n) & 1`. -/
def rrBit (instr n : Nat) : Nat := (instr >>> n) % 2

/-- register-reference bit 11, CLA: clear AC. -/
def rr_cla (instr : Nat) (m : Machine) : Machine :=
  if rrBit instr 11 = 1 then { m with AC := m.AC.clear } else m

/-- bit 10, CLE: clear E. -/
def rr_cle (instr : Nat) (m : Machine) : Machine :=
  if rrBit instr 10 = 1 then { m with E := m.E.clear } else m

/-- bit 9, CMA: complement AC (`AC.load(~AC)`, Python `~x = -x - 1`). -/
def rr_cma (instr : Nat) (m : Machine) : Machine :=
  if rrBit instr 9 = 1 then { m with AC := m.AC.load (-(m.AC.value : Int) - 1) } else m

/-- bit 8, CME: complement E. -/
def rr_cme (instr : Nat) (m : Machine) : Machine :=
  if rrBit instr 8 = 1 then { m with E := m.E.complement } else m

/-- bit 7, CIR: `combined = (E << 16) | AC`, shift right once, new E is the
old bit 0, the lower 16 bits go back to AC. -/
def rr_cir (instr : Nat) (m : Machine) : Machine :=
  if rrBit instr 7 = 1 then
    let combined := (m.E.value <<< 16) ||| m.AC.value
    let lsb := combined &&& 1
    let shifted := combined >>> 1
    let m2 := if lsb ≠ 0 then { m with E := m.E.set } else { m with E := m.E.clear }
    { m2 with AC := m2.AC.load (shifted : Nat) }
  else m

/-- bit 6, CIL: `combined = (E << 16) | AC`, `msb = (combined >> 16) & 1`,
`combined = (combined << 1) & 0x1FFFF`, new E from `msb`, AC reloaded from
the (17-bit) shifted value. -/
def rr_cil (instr : Nat) (m : Machine) : Machine :=
  if rrBit instr 6 = 1 then
    let combined := (m.E.value <<< 16) ||| m.AC.value
    let msb := (combined >>> 16) &&& 1
    let shifted := (combined <<< 1) &&& 0x1FFFF
    let m2 := if msb ≠ 0 then { m with E := m.E.set } else { m with E := m.E.clear }
    { m2 with AC := m2.AC.load (shifted : Nat) }
  else m

/-- bit 5, INC: AC + 1 through `load` (so masked). -/
def rr_inc (instr : Nat) (m : Machine) : Machine :=
  if rrBit instr 5 = 1 then { m with AC := m.AC.load ((m.AC.value + 1 : Nat) : Int) } else m

/-- bit 4, SPA: skip when `(AC & 0x8000) == 0`. -/
def rr_spa (instr : Nat) (m : Machine) : Machine :=
  if rrBit instr 4 = 1 ∧ m.AC.value &&& 0x8000 = 0 then { m with PC := m.PC.increment } else m

/-- bit 3, SNA: skip when `(AC & 0x8000) != 0`. -/
def rr_sna (instr : Nat) (m : Machine) : Machine :=
  if rrBit instr 3 = 1 ∧ m.AC.value &&& 0x8000 ≠ 0 then { m with PC := m.PC.increment } else m

/-- bit 2, SZA: skip when AC = 0. -/
def rr_sza (instr : Nat) (m : Machine) : Machine :=
  if rrBit instr 2 = 1 ∧ m.AC.value = 0 then { m with PC := m.PC.increment } else m

/-- bit 1, SZE: skip when E = 0. -/
def rr_sze (instr : Nat) (m : Machine) : Machine :=
  if rrBit instr 1 = 1 ∧ m.E.value = 0 then { m with PC := m.PC.increment } else m

/-- bit 0, HLT: S = 0. -/
def rr_hlt (instr : Nat) (m : Machine) : Machine :=
  if rrBit instr 0 = 1 then { m with S := m.S.clear } else m

/-- The mnemonics collected for the trace, in test order (bits 11 down
to 0). -/
def rrParts (instr : Nat) : List String :=
  (if rrBit instr 11 = 1 then ["CLA"] else []) ++
  (if rrBit instr 10 = 1 then ["CLE"] else []) ++
  (if rrBit instr 9 = 1 then ["CMA"] else []) ++
  (if rrBit instr 8 = 1 then ["CME"] else []) ++
  (if rrBit instr 7 = 1 then ["CIR"] else []) ++
  (if rrBit instr 6 = 1 then ["CIL"] else []) ++
  (if rrBit instr 5 = 1 then ["INC"] else []) ++
  (if rrBit instr 4 = 1 then ["SPA"] else []) ++
  (if rrBit instr 3 = 1 then ["SNA"] else []) ++
  (if rrBit instr 2 = 1 then ["SZA"] else []) ++
  (if rrBit instr 1 = 1 then ["SZE"] else []) ++
  (if rrBit instr 0 = 1 then ["HLT"] else [])

/-- `execute_register_ref`: at T = 3, test the 12 low IR bits in the fixed
order CLA, CLE, CMA, CME, CIR, CIL, INC, SPA, SNA, SZA, SZE, HLT (each
applied to the state left by the previous one), then finish the
instruction; any other T-state is idle. -/
def execute_register_ref (m : Machine) (T : Nat) : Machine × String × List String :=
  if T ≠ 3 then (m, "T" ++ toString T ++ ": (idle for register-reference)", [])
  else
    let instr := m.IR.value % 4096
    let m1 := rr_cla instr m
    let m2 := rr_cle instr m1
    let m3 := rr_cma instr m2
    let m4 := rr_cme instr m3
    let m5 := rr_cir instr m4
    let m6 := rr_cil instr m5
    let m7 := rr_inc instr m6
    let m8 := rr_spa instr m7
    let m9 := rr_sna instr m8
    let m10 := rr_sza instr m9
    let m11 := rr_sze instr m10
    let m12 := rr_hlt instr m11
    let changed :=
      (if rrBit instr 11 = 1 then ["AC"] else []) ++
      (if rrBit instr 10 = 1 then ["E"] else []) ++
      (if rrBit instr 9 = 1 then ["AC"] else []) ++
      (if rrBit instr 8 = 1 then ["E"] else []) ++
      (if rrBit instr 7 = 1 then ["AC", "E"] else []) ++
      (if rrBit instr 6 = 1 then ["AC", "E"] else []) ++
      (if rrBit instr 5 = 1 then ["AC"] else []) ++
      (if rrBit instr 4 = 1 ∧ m7.AC.value &&& 0x8000 = 0 then ["PC"] else []) ++
      (if rrBit instr 3 = 1 ∧ m8.AC.value &&& 0x8000 ≠ 0 then ["PC"] else []) ++
      (if rrBit instr 2 = 1 ∧ m9.AC.value = 0 then ["PC"] else []) ++
      (if rrBit instr 1 = 1 ∧ m10.E.value = 0 then ["PC"] else []) ++
      (if rrBit instr 0 = 1 then ["S"] else [])
    let parts := rrParts instr
    let micro :=
      if parts = [] then "T3: (no register-reference bit set)"
      else "T3: " ++ String.intercalate ", " parts
    (m12.finish_instruction, micro, changed)

end InstructionSet

/-- The register and flag names whose `updated` marker is set after this
cycle, in the fixed map order of `step_cycle`. -/
def Machine.collect_changed (m : Machine) : List String :=
  (if m.AR.updated then ["AR"] else []) ++
  (if m.PC.updated then ["PC"] else []) ++
  (if m.DR.updated then ["DR"] else []) ++
  (if m.AC.updated then ["AC"] else []) ++
  (if m.IR.updated then ["IR"] else []) ++
  (if m.TR.updated then ["TR"] else []) ++
  (if m.SC.updated then ["SC"] else []) ++
  (if m.E.updated then ["E"] else []) ++
  (if m.I.updated then ["I"] else []) ++
  (if m.S.updated then ["S"] else []) ++
  (if m.R.updated then ["R"] else []) ++
  (if m.IEN.updated then ["IEN"] else []) ++
  (if m.FGI.updated then ["FGI"] else []) ++
  (if m.FGO.updated then ["FGO"] else [])

/-- `Machine.step_cycle`: execute a single clock cycle (one T-state).
T0-T2 is the fetch phase handled by the control unit, T >= 3 is delegated
to the instruction set; a halted machine only counts the cycle. -/
def Machine.step_cycle (m0 : Machine) : Machine × String × List String :=
  let m := m0.reset_updates
  if m.S.value = 0 then
    ({ m with total_cycles := m.total_cycles + 1 }, "CPU halted (HLT executed)", [])
  else
    let T := m.SC.value
    let res : Machine × String × List String :=
      if T = 0 then
        ({ m with AR := m.AR.load (m.PC.value : Nat), SC := m.SC.increment },
         "T0: AR ← PC", [])
      else if T = 1 then
        let rd := m.memory.read m.AR.value
        ({ m with
            memory := rd.1
            IR := m.IR.load (rd.2 : Nat)
            PC := m.PC.increment
            SC := m.SC.increment },
         "T1: IR ← M[AR], PC ← PC + 1", [])
      else if T = 2 then
        let m2 := { m with AR := m.AR.load (m.IR.value : Nat) }
        let ib := (m2.IR.value >>> 15) &&& 1
        let m3 := if ib ≠ 0 then { m2 with I := m2.I.set } else { m2 with I := m2.I.clear }
        ({ m3 with SC := m3.SC.increment }, "T2: AR ← IR(0–11), I ← IR(15)", [])
      else
        let opcode := (m.IR.value >>> 12) &&& 0x7
        if opcode = 7 ∧ m.I.value = 0 then InstructionSet.execute_register_ref m T
        else InstructionSet.execute_memory_ref m opcode T
    let m4 := { res.1 with total_cycles := res.1.total_cycles + 1 }
    (m4, res.2.1, res.2.2 ++ m4.collect_changed)

/-- The `while True` body of `step_instruction`, with explicit fuel (the
Python loop is unbounded); `none` means the fuel ran out before the
instruction boundary. -/
def Machine.step_instruction_go : Nat → Machine → Option (Machine × String × List String)
  | 0, _ => none
  | fuel + 1, m =>
    let r := m.step_cycle
    if r.1.S.value = 0 ∨ r.1.SC.value = 0 then some r
    else Machine.step_instruction_go fuel r.1

/-- `Machine.step_instruction`: run cycles to the end of the current
instruction (SC back to 0, or halt); an already-halted machine returns the
halted trace without stepping. -/
def Machine.step_instruction (m : Machine) (fuel : Nat) : Option (Machine × String × List String) :=
  if m.S.value = 0 then some (m, "CPU halted (HLT executed)", [])
  else Machine.step_instruction_go fuel m

/-- The `while self.S.value != 0` loop of `run_until_halt`, carrying the last
result; outer fuel bounds the number of instructions, `innerFuel` the cycles
of each. -/
def Machine.run_until_halt_go : Nat → Nat → Machine → String × List String →
    Option (Machine × String × List String)
  | 0, _, m, last => if m.S.value = 0 then some (m, last.1, last.2) else none
  | fuel + 1, innerFuel, m, last =>
    if m.S.value = 0 then some (m, last.1, last.2)
    else
      match m.step_instruction innerFuel with
      | none => none
      | some r => Machine.run_until_halt_go fuel innerFuel r.1 (r.2.1, r.2.2)

/-- `Machine.run_until_halt`: run continuously until HLT (S = 0). -/
def Machine.run_until_halt (m : Machine) (fuel innerFuel : Nat) :
    Option (Machine × String × List String) :=
  Machine.run_until_halt_go fuel innerFuel m ("", [])

/-- `Machine.load_program_and_data`: load the program image, then the data
image, set PC to the program start when there is one, reset SC, set S.  An
uncaught `ValueError` from a loader leaves the machine with the partially
loaded memory and propagates the error. -/
def Machine.load_program_and_data (m : Machine) (prog dataSrc : Option (List String)) :
    Machine × Except String Unit :=
  let r1 := m.memory.load_file prog
  match r1.2 with
  | Except.error e => ({ m with memory := r1.1 }, Except.error e)
  | Except.ok prog_start =>
    let r2 := r1.1.load_file dataSrc
    match r2.2 with
    | Except.error e => ({ m with memory := r2.1 }, Except.error e)
    | Except.ok _ =>
      let m2 := { m with memory := r2.1 }
      let m3 := match prog_start with
        | some a => { m2 with PC := m2.PC.load (a : Nat) }
        | none => m2
      ({ m3 with SC := m3.SC.clear, S := m3.S.set }, Except.ok ())

/-- Modelled from the spec: the documented maximum number of T-states of each
opcode family (the section 4.3 table, counted T0 .. T-final; in that table T3
is spent uniformly in both addressing modes, so the count does not depend on
the indirect flag).  AND/ADD/LDA complete at T5, STA and BUN at T4, BSA at
T5, ISZ at T6; the register-reference family completes at T3. -/
def specMaxTStates (opcode : Nat) : Nat :=
  if opcode = 7 then 4
  else if opcode = 0 ∨ opcode = 1 ∨ opcode = 2 then 6
  else if opcode = 3 ∨ opcode = 4 then 5
  else if opcode = 5 then 6
  else 7

/-! ### Basic facts about the storage cells -/

@[simp] lemma Register.load_bits (r : Register) (v : Int) : (r.load v).bits = r.bits := rfl

@[simp] lemma Register.load_name (r : Register) (v : Int) : (r.load v).name = r.name := rfl

@[simp] lemma Register.load_updated (r : Register) (v : Int) : (r.load v).updated = true := rfl

@[simp] lemma Register.increment_bits (r : Register) : r.increment.bits = r.bits := rfl

@[simp] lemma Register.increment_value (r : Register) :
    r.increment.value = (r.value + 1) % 2 ^ r.bits := rfl

@[simp] lemma Register.clear_bits (r : Register) : r.clear.bits = r.bits := rfl

@[simp] lemma Register.clear_value (r : Register) : r.clear.value = 0 := rfl

@[simp] lemma Register.reset_state_bits (r : Register) : r.reset_state.bits = r.bits := rfl

@[simp] lemma Register.reset_state_value (r : Register) : r.reset_state.value = r.value := rfl

@[simp] lemma Register.load_value_nat (r : Register) (n : Nat) :
    (r.load (n : Nat)).value = n % 2 ^ r.bits := by
  simp only [Register.load]
  generalize 2 ^ r.bits = M
  omega

@[simp] lemma Register.load_value_add_nat (r : Register) (a b : Nat) :
    (r.load ((a : Int) + (b : Int))).value = (a + b) % 2 ^ r.bits := by
  rw [← Nat.cast_add]; exact Register.load_value_nat r (a + b)

lemma Register.load_value_lt (r : Register) (v : Int) : (r.load v).value < 2 ^ r.bits := by
  simp only [Register.load]
  have hM : (0 : Int) < ((2 ^ r.bits : Nat) : Int) := by
    exact_mod_cast Nat.pos_pow_of_pos _ (by omega)
  have h1 : 0 ≤ v % ((2 ^ r.bits : Nat) : Int) := Int.emod_nonneg v (by omega)
  have h2 : v % ((2 ^ r.bits : Nat) : Int) < ((2 ^ r.bits : Nat) : Int) :=
    Int.emod_lt_of_pos v hM
  omega

@[simp] lemma Flag.set_value (f : Flag) : f.set.value = 1 := rfl

@[simp] lemma Flag.clear_value_eq (f : Flag) : f.clear.value = 0 := rfl

@[simp] lemma Flag.complement_value (f : Flag) : f.complement.value = 1 - f.value := rfl

@[simp] lemma Flag.reset_state_value_eq (f : Flag) : f.reset_state.value = f.value := rfl

/-! ### Projection facts for `reset_updates` and `finish_instruction` -/

@[simp] lemma Machine.reset_updates_AR (m : Machine) : m.reset_updates.AR = m.AR.reset_state := rfl

@[simp] lemma Machine.reset_updates_PC (m : Machine) : m.reset_updates.PC = m.PC.reset_state := rfl

@[simp] lemma Machine.reset_updates_DR (m : Machine) : m.reset_updates.DR = m.DR.reset_state := rfl

@[simp] lemma Machine.reset_updates_AC (m : Machine) : m.reset_updates.AC = m.AC.reset_state := rfl

@[simp] lemma Machine.reset_updates_IR (m : Machine) : m.reset_updates.IR = m.IR.reset_state := rfl

@[simp] lemma Machine.reset_updates_TR (m : Machine) : m.reset_updates.TR = m.TR.reset_state := rfl

@[simp] lemma Machine.reset_updates_SC (m : Machine) : m.reset_updates.SC = m.SC.reset_state := rfl

@[simp] lemma Machine.reset_updates_E (m : Machine) : m.reset_updates.E = m.E.reset_state := rfl

@[simp] lemma Machine.reset_updates_I (m : Machine) : m.reset_updates.I = m.I.reset_state := rfl

@[simp] lemma Machine.reset_updates_S (m : Machine) : m.reset_updates.S = m.S.reset_state := rfl

@[simp] lemma Machine.reset_updates_R (m : Machine) : m.reset_updates.R = m.R.reset_state := rfl

@[simp] lemma Machine.reset_updates_IEN (m : Machine) :
    m.reset_updates.IEN = m.IEN.reset_state := rfl

@[simp] lemma Machine.reset_updates_FGI (m : Machine) :
    m.reset_updates.FGI = m.FGI.reset_state := rfl

@[simp] lemma Machine.reset_updates_FGO (m : Machine) :
    m.reset_updates.FGO = m.FGO.reset_state := rfl

@[simp] lemma Machine.reset_updates_memory (m : Machine) : m.reset_updates.memory = m.memory := rfl

@[simp] lemma Machine.reset_updates_cycles (m : Machine) :
    m.reset_updates.total_cycles = m.total_cycles := rfl

@[simp] lemma Machine.reset_updates_icount (m : Machine) :
    m.reset_updates.instr_count = m.instr_count := rfl

@[simp] lemma Machine.finish_SC (m : Machine) : m.finish_instruction.SC = m.SC.clear := rfl

@[simp] lemma Machine.finish_icount (m : Machine) :
    m.finish_instruction.instr_count = m.instr_count + 1 := rfl

@[simp] lemma Machine.finish_S (m : Machine) : m.finish_instruction.S = m.S := rfl

@[simp] lemma Machine.finish_AC (m : Machine) : m.finish_instruction.AC = m.AC := rfl

@[simp] lemma Machine.finish_E (m : Machine) : m.finish_instruction.E = m.E := rfl

@[simp] lemma Machine.finish_I (m : Machine) : m.finish_instruction.I = m.I := rfl

@[simp] lemma Machine.finish_IR (m : Machine) : m.finish_instruction.IR = m.IR := rfl

@[simp] lemma Machine.finish_PC (m : Machine) : m.finish_instruction.PC = m.PC := rfl

@[simp] lemma Machine.finish_DR (m : Machine) : m.finish_instruction.DR = m.DR := rfl

@[simp] lemma Machine.finish_memory (m : Machine) : m.finish_instruction.memory = m.memory := rfl

@[simp] lemma Machine.finish_cycles (m : Machine) :
    m.finish_instruction.total_cycles = m.total_cycles := rfl

/-! ### Symbolic execution of single cycles -/

lemma Machine.step_instruction_go_step (fuel : Nat) (m : Machine)
    (h1 : (m.step_cycle).1.S.value ≠ 0) (h2 : (m.step_cycle).1.SC.value ≠ 0) :
    Machine.step_instruction_go (fuel + 1) m =
      Machine.step_instruction_go fuel (m.step_cycle).1 := by
  simp [Machine.step_instruction_go, h1, h2]

lemma Machine.step_instruction_go_stop (fuel : Nat) (m : Machine)
    (h : (m.step_cycle).1.SC.value = 0) :
    Machine.step_instruction_go (fuel + 1) m = some m.step_cycle := by
  simp [Machine.step_instruction_go, h]

/-- T0 of a running machine: `AR ← PC`, SC advances to 1; everything else a
later cycle depends on is untouched. -/
lemma Machine.step_cycle_T0 (m : Machine) (hW : m.wfBits) (hS : m.S.value = 1)
    (hSC : m.SC.value = 0) :
    (m.step_cycle).1.S.value = 1 ∧
    (m.step_cycle).1.SC.value = 1 ∧
    (m.step_cycle).1.AR.value = m.PC.value % 4096 ∧
    (m.step_cycle).1.PC.value = m.PC.value ∧
    (m.step_cycle).1.IR.value = m.IR.value ∧
    (m.step_cycle).1.I.value = m.I.value ∧
    (m.step_cycle).1.instr_count = m.instr_count ∧
    (m.step_cycle).1.total_cycles = m.total_cycles + 1 ∧
    (m.step_cycle).1.memory.data = m.memory.data ∧
    (m.step_cycle).1.wfBits := by
  obtain ⟨h1, h2, h3, h4, h5, h6, h7⟩ := hW
  simp [Machine.step_cycle, Machine.wfBits, hS, hSC, h1, h2, h3, h4, h5, h6, h7]

/-- T1: `IR ← M[AR]`, `PC ← PC + 1`, SC advances to 2. -/
lemma Machine.step_cycle_T1 (m : Machine) (hW : m.wfBits) (hS : m.S.value = 1)
    (hSC : m.SC.value = 1) :
    (m.step_cycle).1.S.value = 1 ∧
    (m.step_cycle).1.SC.value = 2 ∧
    (m.step_cycle).1.IR.value = m.memory.data (m.AR.value % 4096) % 65536 ∧
    (m.step_cycle).1.PC.value = (m.PC.value + 1) % 4096 ∧
    (m.step_cycle).1.I.value = m.I.value ∧
    (m.step_cycle).1.instr_count = m.instr_count ∧
    (m.step_cycle).1.total_cycles = m.total_cycles + 1 ∧
    (m.step_cycle).1.memory.data = m.memory.data ∧
    (m.step_cycle).1.wfBits := by
  obtain ⟨h1, h2, h3, h4, h5, h6, h7⟩ := hW
  simp [Machine.step_cycle, Machine.wfBits, Memory.read, Memory.mask_addr,
    hS, hSC, h1, h2, h3, h4, h5, h6, h7]

/-- T2: `AR ← IR(0-11)`, `I ← IR(15)`, SC advances to 3. -/
lemma Machine.step_cycle_T2 (m : Machine) (hW : m.wfBits) (hS : m.S.value = 1)
    (hSC : m.SC.value = 2) :
    (m.step_cycle).1.S.value = 1 ∧
    (m.step_cycle).1.SC.value = 3 ∧
    (m.step_cycle).1.AR.value = m.IR.value % 4096 ∧
    (m.step_cycle).1.IR.value = m.IR.value ∧
    (m.step_cycle).1.PC.value = m.PC.value ∧
    (m.step_cycle).1.I.value = (m.IR.value >>> 15) % 2 ∧
    (m.step_cycle).1.instr_count = m.instr_count ∧
    (m.step_cycle).1.total_cycles = m.total_cycles + 1 ∧
    (m.step_cycle).1.memory.data = m.memory.data ∧
    (m.step_cycle).1.wfBits := by
  obtain ⟨h1, h2, h3, h4, h5, h6, h7⟩ := hW
  rcases Nat.mod_two_eq_zero_or_one (m.IR.value >>> 15) with hb | hb <;>
    simp [Machine.step_cycle, Machine.wfBits, Nat.and_one_is_mod,
      hb, hS, hSC, h1, h2, h3, h4, h5, h6, h7]

/-- The DR-fetch cycle shared by AND/ADD/LDA/ISZ (effective T-state 3):
`DR ← M[AR]`, SC advances. -/
lemma Machine.step_cycle_memref_load (m : Machine) (k i : Nat) (hW : m.wfBits)
    (hS : m.S.value = 1) (hi : i = 0 ∨ i = 1) (hSC : m.SC.value = 3 + i)
    (hI : m.I.value = i) (hk : k = 0 ∨ k = 1 ∨ k = 2 ∨ k = 6)
    (hOp : (m.IR.value >>> 12) &&& 7 = k) :
    (m.step_cycle).1.S.value = 1 ∧
    (m.step_cycle).1.SC.value = 4 + i ∧
    (m.step_cycle).1.DR.value = m.memory.data (m.AR.value % 4096) % 65536 ∧
    (m.step_cycle).1.AR.value = m.AR.value ∧
    (m.step_cycle).1.AC.value = m.AC.value ∧
    (m.step_cycle).1.IR.value = m.IR.value ∧
    (m.step_cycle).1.I.value = m.I.value ∧
    (m.step_cycle).1.PC.value = m.PC.value ∧
    (m.step_cycle).1.instr_count = m.instr_count ∧
    (m.step_cycle).1.total_cycles = m.total_cycles + 1 ∧
    (m.step_cycle).1.memory.data = m.memory.data ∧
    (m.step_cycle).1.wfBits := by
  obtain ⟨h1, h2, h3, h4, h5, h6, h7⟩ := hW
  rcases hi with rfl | rfl <;> rcases hk with rfl | rfl | rfl | rfl <;>
    simp [Machine.step_cycle, Machine.wfBits, InstructionSet.execute_memory_ref,
      InstructionSet.mem_AND, InstructionSet.mem_ADD, InstructionSet.mem_LDA,
      InstructionSet.mem_ISZ, Memory.read, Memory.mask_addr,
      hS, hSC, hI, hOp, h1, h2, h3, h4, h5, h6, h7]

/-- The ALU completion cycle of AND/ADD/LDA (effective T-state 4): the
instruction finishes. -/
lemma Machine.step_cycle_alu_finish (m : Machine) (k i : Nat) (hW : m.wfBits)
    (hS : m.S.value = 1) (hi : i = 0 ∨ i = 1) (hSC : m.SC.value = 4 + i)
    (hI : m.I.value = i) (hk : k = 0 ∨ k = 1 ∨ k = 2)
    (hOp : (m.IR.value >>> 12) &&& 7 = k) :
    (m.step_cycle).1.S.value = 1 ∧
    (m.step_cycle).1.SC.value = 0 ∧
    (m.step_cycle).1.instr_count = m.instr_count + 1 ∧
    (m.step_cycle).1.total_cycles = m.total_cycles + 1 := by
  obtain ⟨h1, h2, h3, h4, h5, h6, h7⟩ := hW
  rcases hi with rfl | rfl <;> rcases hk with rfl | rfl | rfl <;>
    simp [Machine.step_cycle, InstructionSet.execute_memory_ref,
      InstructionSet.mem_AND, InstructionSet.mem_ADD, InstructionSet.mem_LDA,
      apply_ite,
      hS, hSC, hI, hOp, h1, h2, h3, h4, h5, h6, h7]

/-- STA and BUN complete at effective T-state 3. -/
lemma Machine.step_cycle_sta_bun_finish (m : Machine) (k i : Nat) (hW : m.wfBits)
    (hS : m.S.value = 1) (hi : i = 0 ∨ i = 1) (hSC : m.SC.value = 3 + i)
    (hI : m.I.value = i) (hk : k = 3 ∨ k = 4)
    (hOp : (m.IR.value >>> 12) &&& 7 = k) :
    (m.step_cycle).1.S.value = 1 ∧
    (m.step_cycle).1.SC.value = 0 ∧
    (m.step_cycle).1.instr_count = m.instr_count + 1 ∧
    (m.step_cycle).1.total_cycles = m.total_cycles + 1 := by
  obtain ⟨h1, h2, h3, h4, h5, h6, h7⟩ := hW
  rcases hi with rfl | rfl <;> rcases hk with rfl | rfl <;>
    simp [Machine.step_cycle, InstructionSet.execute_memory_ref,
      InstructionSet.mem_STA, InstructionSet.mem_BUN,
      hS, hSC, hI, hOp, h1, h2, h3, h4, h5, h6, h7]

/-- BSA's first execution cycle (effective T-state 3): `M[AR] ← PC`, SC
advances. -/
lemma Machine.step_cycle_bsa_write (m : Machine) (i : Nat) (hW : m.wfBits)
    (hS : m.S.value = 1) (hi : i = 0 ∨ i = 1) (hSC : m.SC.value = 3 + i)
    (hI : m.I.value = i) (hOp : (m.IR.value >>> 12) &&& 7 = 5) :
    (m.step_cycle).1.S.value = 1 ∧
    (m.step_cycle).1.SC.value = 4 + i ∧
    (m.step_cycle).1.IR.value = m.IR.value ∧
    (m.step_cycle).1.I.value = m.I.value ∧
    (m.step_cycle).1.instr_count = m.instr_count ∧
    (m.step_cycle).1.total_cycles = m.total_cycles + 1 ∧
    (m.step_cycle).1.wfBits := by
  obtain ⟨h1, h2, h3, h4, h5, h6, h7⟩ := hW
  rcases hi with rfl | rfl <;>
    simp [Machine.step_cycle, Machine.wfBits, InstructionSet.execute_memory_ref,
      InstructionSet.mem_BSA, Memory.write, Memory.mask_addr,
      hS, hSC, hI, hOp, h1, h2, h3, h4, h5, h6, h7]

/-- BSA completes at effective T-state 4. -/
lemma Machine.step_cycle_bsa_finish (m : Machine) (i : Nat) (hW : m.wfBits)
    (hS : m.S.value = 1) (hi : i = 0 ∨ i = 1) (hSC : m.SC.value = 4 + i)
    (hI : m.I.value = i) (hOp : (m.IR.value >>> 12) &&& 7 = 5) :
    (m.step_cycle).1.S.value = 1 ∧
    (m.step_cycle).1.SC.value = 0 ∧
    (m.step_cycle).1.instr_count = m.instr_count + 1 ∧
    (m.step_cycle).1.total_cycles = m.total_cycles + 1 := by
  obtain ⟨h1, h2, h3, h4, h5, h6, h7⟩ := hW
  rcases hi with rfl | rfl <;>
    simp [Machine.step_cycle, InstructionSet.execute_memory_ref,
      InstructionSet.mem_BSA,
      hS, hSC, hI, hOp, h1, h2, h3, h4, h5, h6, h7]

/-- ISZ's middle cycle (effective T-state 4): `DR ← DR + 1`, SC advances. -/
lemma Machine.step_cycle_isz_incr (m : Machine) (i : Nat) (hW : m.wfBits)
    (hS : m.S.value = 1) (hi : i = 0 ∨ i = 1) (hSC : m.SC.value = 4 + i)
    (hI : m.I.value = i) (hOp : (m.IR.value >>> 12) &&& 7 = 6) :
    (m.step_cycle).1.S.value = 1 ∧
    (m.step_cycle).1.SC.value = 5 + i ∧
    (m.step_cycle).1.IR.value = m.IR.value ∧
    (m.step_cycle).1.I.value = m.I.value ∧
    (m.step_cycle).1.instr_count = m.instr_count ∧
    (m.step_cycle).1.total_cycles = m.total_cycles + 1 ∧
    (m.step_cycle).1.wfBits := by
  obtain ⟨h1, h2, h3, h4, h5, h6, h7⟩ := hW
  rcases hi with rfl | rfl <;>
    simp [Machine.step_cycle, Machine.wfBits, InstructionSet.execute_memory_ref,
      InstructionSet.mem_ISZ,
      hS, hSC, hI, hOp, h1, h2, h3, h4, h5, h6, h7]

/-- ISZ completes at effective T-state 5. -/
lemma Machine.step_cycle_isz_finish (m : Machine) (i : Nat) (hW : m.wfBits)
    (hS : m.S.value = 1) (hi : i = 0 ∨ i = 1) (hSC : m.SC.value = 5 + i)
    (hI : m.I.value = i) (hOp : (m.IR.value >>> 12) &&& 7 = 6) :
    (m.step_cycle).1.S.value = 1 ∧
    (m.step_cycle).1.SC.value = 0 ∧
    (m.step_cycle).1.instr_count = m.instr_count + 1 ∧
    (m.step_cycle).1.total_cycles = m.total_cycles + 1 := by
  obtain ⟨h1, h2, h3, h4, h5, h6, h7⟩ := hW
  by_cases hz : m.DR.value = 0 <;> rcases hi with rfl | rfl <;>
    simp [Machine.step_cycle, InstructionSet.execute_memory_ref,
      InstructionSet.mem_ISZ, Memory.write,
      hz, hS, hSC, hI, hOp, h1, h2, h3, h4, h5, h6, h7]

/-- The indirect-address resolution cycle at T3 (any memory-reference
opcode): `AR ← M[AR]`, SC advances to 4. -/
lemma Machine.step_cycle_indirect (m : Machine) (hW : m.wfBits) (hS : m.S.value = 1)
    (hSC : m.SC.value = 3) (hI : m.I.value = 1) :
    (m.step_cycle).1.S.value = 1 ∧
    (m.step_cycle).1.SC.value = 4 ∧
    (m.step_cycle).1.AR.value = m.memory.data (m.AR.value % 4096) % 4096 ∧
    (m.step_cycle).1.IR.value = m.IR.value ∧
    (m.step_cycle).1.I.value = m.I.value ∧
    (m.step_cycle).1.PC.value = m.PC.value ∧
    (m.step_cycle).1.AC.value = m.AC.value ∧
    (m.step_cycle).1.instr_count = m.instr_count ∧
    (m.step_cycle).1.total_cycles = m.total_cycles + 1 ∧
    (m.step_cycle).1.memory.data = m.memory.data ∧
    (m.step_cycle).1.wfBits := by
  obtain ⟨h1, h2, h3, h4, h5, h6, h7⟩ := hW
  have h4096 : 2 ^ 12 = 4096 := by norm_num
  simp [Machine.step_cycle, Machine.wfBits, InstructionSet.execute_memory_ref,
    Memory.read, Memory.mask_addr, Nat.mod_mod_of_dvd,
    hS, hSC, hI, h1, h2, h3, h4, h5, h6, h7]

/-! The register-reference micro-operations touch only AC, E, PC and S; the
sequencing state is untouched by each of them. -/

@[simp] lemma InstructionSet.rr_cla_SC (instr : Nat) (m : Machine) :
    (InstructionSet.rr_cla instr m).SC = m.SC := by
  unfold InstructionSet.rr_cla; split <;> rfl

@[simp] lemma InstructionSet.rr_cla_icount (instr : Nat) (m : Machine) :
    (InstructionSet.rr_cla instr m).instr_count = m.instr_count := by
  unfold InstructionSet.rr_cla; split <;> rfl

@[simp] lemma InstructionSet.rr_cla_cycles (instr : Nat) (m : Machine) :
    (InstructionSet.rr_cla instr m).total_cycles = m.total_cycles := by
  unfold InstructionSet.rr_cla; split <;> rfl

@[simp] lemma InstructionSet.rr_cle_SC (instr : Nat) (m : Machine) :
    (InstructionSet.rr_cle instr m).SC = m.SC := by
  unfold InstructionSet.rr_cle; split <;> rfl

@[simp] lemma InstructionSet.rr_cle_icount (instr : Nat) (m : Machine) :
    (InstructionSet.rr_cle instr m).instr_count = m.instr_count := by
  unfold InstructionSet.rr_cle; split <;> rfl

@[simp] lemma InstructionSet.rr_cle_cycles (instr : Nat) (m : Machine) :
    (InstructionSet.rr_cle instr m).total_cycles = m.total_cycles := by
  unfold InstructionSet.rr_cle; split <;> rfl

@[simp] lemma InstructionSet.rr_cma_SC (instr : Nat) (m : Machine) :
    (InstructionSet.rr_cma instr m).SC = m.SC := by
  unfold InstructionSet.rr_cma; split <;> rfl

@[simp] lemma InstructionSet.rr_cma_icount (instr : Nat) (m : Machine) :
    (InstructionSet.rr_cma instr m).instr_count = m.instr_count := by
  unfold InstructionSet.rr_cma; split <;> rfl

@[simp] lemma InstructionSet.rr_cma_cycles (instr : Nat) (m : Machine) :
    (InstructionSet.rr_cma instr m).total_cycles = m.total_cycles := by
  unfold InstructionSet.rr_cma; split <;> rfl

@[simp] lemma InstructionSet.rr_cme_SC (instr : Nat) (m : Machine) :
    (InstructionSet.rr_cme instr m).SC = m.SC := by
  unfold InstructionSet.rr_cme; split <;> rfl

@[simp] lemma InstructionSet.rr_cme_icount (instr : Nat) (m : Machine) :
    (InstructionSet.rr_cme instr m).instr_count = m.instr_count := by
  unfold InstructionSet.rr_cme; split <;> rfl

@[simp] lemma InstructionSet.rr_cme_cycles (instr : Nat) (m : Machine) :
    (InstructionSet.rr_cme instr m).total_cycles = m.total_cycles := by
  unfold InstructionSet.rr_cme; split <;> rfl

@[simp] lemma InstructionSet.rr_cir_SC (instr : Nat) (m : Machine) :
    (InstructionSet.rr_cir instr m).SC = m.SC := by
  unfold InstructionSet.rr_cir
  split
  · dsimp only
    split <;> rfl
  · rfl

@[simp] lemma InstructionSet.rr_cir_icount (instr : Nat) (m : Machine) :
    (InstructionSet.rr_cir instr m).instr_count = m.instr_count := by
  unfold InstructionSet.rr_cir
  split
  · dsimp only
    split <;> rfl
  · rfl

@[simp] lemma InstructionSet.rr_cir_cycles (instr : Nat) (m : Machine) :
    (InstructionSet.rr_cir instr m).total_cycles = m.total_cycles := by
  unfold InstructionSet.rr_cir
  split
  · dsimp only
    split <;> rfl
  · rfl

@[simp] lemma InstructionSet.rr_cil_SC (instr : Nat) (m : Machine) :
    (InstructionSet.rr_cil instr m).SC = m.SC := by
  unfold InstructionSet.rr_cil
  split
  · dsimp only
    split <;> rfl
  · rfl

@[simp] lemma InstructionSet.rr_cil_icount (instr : Nat) (m : Machine) :
    (InstructionSet.rr_cil instr m).instr_count = m.instr_count := by
  unfold InstructionSet.rr_cil
  split
  · dsimp only
    split <;> rfl
  · rfl

@[simp] lemma InstructionSet.rr_cil_cycles (instr : Nat) (m : Machine) :
    (InstructionSet.rr_cil instr m).total_cycles = m.total_cycles := by
  unfold InstructionSet.rr_cil
  split
  · dsimp only
    split <;> rfl
  · rfl

@[simp] lemma InstructionSet.rr_inc_SC (instr : Nat) (m : Machine) :
    (InstructionSet.rr_inc instr m).SC = m.SC := by
  unfold InstructionSet.rr_inc; split <;> rfl

@[simp] lemma InstructionSet.rr_inc_icount (instr : Nat) (m : Machine) :
    (InstructionSet.rr_inc instr m).instr_count = m.instr_count := by
  unfold InstructionSet.rr_inc; split <;> rfl

@[simp] lemma InstructionSet.rr_inc_cycles (instr : Nat) (m : Machine) :
    (InstructionSet.rr_inc instr m).total_cycles = m.total_cycles := by
  unfold InstructionSet.rr_inc; split <;> rfl

@[simp] lemma InstructionSet.rr_spa_SC (instr : Nat) (m : Machine) :
    (InstructionSet.rr_spa instr m).SC = m.SC := by
  unfold InstructionSet.rr_spa; split <;> rfl

@[simp] lemma InstructionSet.rr_spa_icount (instr : Nat) (m : Machine) :
    (InstructionSet.rr_spa instr m).instr_count = m.instr_count := by
  unfold InstructionSet.rr_spa; split <;> rfl

@[simp] lemma InstructionSet.rr_spa_cycles (instr : Nat) (m : Machine) :
    (InstructionSet.rr_spa instr m).total_cycles = m.total_cycles := by
  unfold InstructionSet.rr_spa; split <;> rfl

@[simp] lemma InstructionSet.rr_sna_SC (instr : Nat) (m : Machine) :
    (InstructionSet.rr_sna instr m).SC = m.SC := by
  unfold InstructionSet.rr_sna; split <;> rfl

@[simp] lemma InstructionSet.rr_sna_icount (instr : Nat) (m : Machine) :
    (InstructionSet.rr_sna instr m).instr_count = m.instr_count := by
  unfold InstructionSet.rr_sna; split <;> rfl

@[simp] lemma InstructionSet.rr_sna_cycles (instr : Nat) (m : Machine) :
    (InstructionSet.rr_sna instr m).total_cycles = m.total_cycles := by
  unfold InstructionSet.rr_sna; split <;> rfl

@[simp] lemma InstructionSet.rr_sza_SC (instr : Nat) (m : Machine) :
    (InstructionSet.rr_sza instr m).SC = m.SC := by
  unfold InstructionSet.rr_sza; split <;> rfl

@[simp] lemma InstructionSet.rr_sza_icount (instr : Nat) (m : Machine) :
    (InstructionSet.rr_sza instr m).instr_count = m.instr_count := by
  unfold InstructionSet.rr_sza; split <;> rfl

@[simp] lemma InstructionSet.rr_sza_cycles (instr : Nat) (m : Machine) :
    (InstructionSet.rr_sza instr m).total_cycles = m.total_cycles := by
  unfold InstructionSet.rr_sza; split <;> rfl

@[simp] lemma InstructionSet.rr_sze_SC (instr : Nat) (m : Machine) :
    (InstructionSet.rr_sze instr m).SC = m.SC := by
  unfold InstructionSet.rr_sze; split <;> rfl

@[simp] lemma InstructionSet.rr_sze_icount (instr : Nat) (m : Machine) :
    (InstructionSet.rr_sze instr m).instr_count = m.instr_count := by
  unfold InstructionSet.rr_sze; split <;> rfl

@[simp] lemma InstructionSet.rr_sze_cycles (instr : Nat) (m : Machine) :
    (InstructionSet.rr_sze instr m).total_cycles = m.total_cycles := by
  unfold InstructionSet.rr_sze; split <;> rfl

@[simp] lemma InstructionSet.rr_hlt_SC (instr : Nat) (m : Machine) :
    (InstructionSet.rr_hlt instr m).SC = m.SC := by
  unfold InstructionSet.rr_hlt; split <;> rfl

@[simp] lemma InstructionSet.rr_hlt_icount (instr : Nat) (m : Machine) :
    (InstructionSet.rr_hlt instr m).instr_count = m.instr_count := by
  unfold InstructionSet.rr_hlt; split <;> rfl

@[simp] lemma InstructionSet.rr_hlt_cycles (instr : Nat) (m : Machine) :
    (InstructionSet.rr_hlt instr m).total_cycles = m.total_cycles := by
  unfold InstructionSet.rr_hlt; split <;> rfl

/-- A register-reference instruction (opcode 7, direct) completes entirely at
T3, whatever its bits do to AC, E, PC and S. -/
lemma Machine.step_cycle_regref_finish (m : Machine) (hS : m.S.value = 1)
    (hSC : m.SC.value = 3) (hI : m.I.value = 0)
    (hOp : (m.IR.value >>> 12) &&& 7 = 7) :
    (m.step_cycle).1.SC.value = 0 ∧
    (m.step_cycle).1.instr_count = m.instr_count + 1 ∧
    (m.step_cycle).1.total_cycles = m.total_cycles + 1 := by
  simp [Machine.step_cycle, InstructionSet.execute_register_ref,
    hS, hSC, hI, hOp]

/-! ### Whole-instruction trajectories -/

lemma mod4096_idem (a : Nat) : a % 4096 % 4096 = a % 4096 := by omega

/-- The three fetch/decode cycles T0-T2, folded into the
`step_instruction` loop: afterwards IR holds the (masked) word fetched at
the original PC and I its bit 15. -/
lemma Machine.fetch_phase (m : Machine) (hW : m.wfBits) (hS : m.S.value = 1)
    (hSC : m.SC.value = 0) :
    ∃ m3 : Machine,
      (∀ fuel : Nat,
        Machine.step_instruction_go (fuel + 3) m = Machine.step_instruction_go fuel m3) ∧
      m3.S.value = 1 ∧ m3.SC.value = 3 ∧
      m3.IR.value = m.memory.data (m.PC.value % 4096) % 65536 ∧
      m3.I.value = ((m.memory.data (m.PC.value % 4096) % 65536) >>> 15) % 2 ∧
      m3.instr_count = m.instr_count ∧ m3.wfBits := by
  obtain ⟨hS1, hSC1, hAR1, hPC1, hIR1, hI1, hic1, hcy1, hdata1, hW1⟩ :=
    Machine.step_cycle_T0 m hW hS hSC
  obtain ⟨hS2, hSC2, hIR2, hPC2, hI2, hic2, hcy2, hdata2, hW2⟩ :=
    Machine.step_cycle_T1 (m.step_cycle).1 hW1 hS1 hSC1
  obtain ⟨hS3, hSC3, hAR3, hIR3, hPC3, hI3, hic3, hcy3, hdata3, hW3⟩ :=
    Machine.step_cycle_T2 ((m.step_cycle).1.step_cycle).1 hW2 hS2 hSC2
  refine ⟨(((m.step_cycle).1.step_cycle).1.step_cycle).1, ?_, hS3, hSC3, ?_, ?_, ?_, hW3⟩
  · intro fuel
    rw [show fuel + 3 = (fuel + 2) + 1 by omega,
      Machine.step_instruction_go_step (fuel + 2) m (by rw [hS1]; omega) (by rw [hSC1]; omega),
      show fuel + 2 = (fuel + 1) + 1 by omega,
      Machine.step_instruction_go_step (fuel + 1) _ (by rw [hS2]; omega) (by rw [hSC2]; omega),
      Machine.step_instruction_go_step fuel _ (by rw [hS3]; omega) (by rw [hSC3]; omega)]
  · rw [hIR3, hIR2, hdata1, hAR1, mod4096_idem]
  · rw [hI3, hIR2, hdata1, hAR1, mod4096_idem]
  · rw [hic3, hic2, hic1]

/-- Register-reference execution from T3: one more cycle completes. -/
lemma Machine.exec_regref (m3 : Machine) (hS : m3.S.value = 1) (hSC : m3.SC.value = 3)
    (hI : m3.I.value = 0) (hOp : (m3.IR.value >>> 12) &&& 7 = 7) (fuel : Nat) :
    ∃ r, Machine.step_instruction_go (fuel + 1) m3 = some r ∧
      r.1.SC.value = 0 ∧ r.1.instr_count = m3.instr_count + 1 := by
  obtain ⟨hSC0, hic, hcy⟩ := Machine.step_cycle_regref_finish m3 hS hSC hI hOp
  exact ⟨m3.step_cycle, Machine.step_instruction_go_stop fuel m3 hSC0, hSC0, hic⟩

/-- STA/BUN direct execution from T3: one more cycle completes. -/
lemma Machine.exec_sta_bun_direct (m3 : Machine) (k : Nat) (hW : m3.wfBits)
    (hS : m3.S.value = 1) (hSC : m3.SC.value = 3) (hI : m3.I.value = 0)
    (hk : k = 3 ∨ k = 4) (hOp : (m3.IR.value >>> 12) &&& 7 = k) (fuel : Nat) :
    ∃ r, Machine.step_instruction_go (fuel + 1) m3 = some r ∧
      r.1.SC.value = 0 ∧ r.1.instr_count = m3.instr_count + 1 := by
  obtain ⟨hS0, hSC0, hic, hcy⟩ :=
    Machine.step_cycle_sta_bun_finish m3 k 0 hW hS (Or.inl rfl) hSC hI hk hOp
  exact ⟨m3.step_cycle, Machine.step_instruction_go_stop fuel m3 hSC0, hSC0, hic⟩

/-- AND/ADD/LDA direct execution from T3: two more cycles complete. -/
lemma Machine.exec_alu_direct (m3 : Machine) (k : Nat) (hW : m3.wfBits)
    (hS : m3.S.value = 1) (hSC : m3.SC.value = 3) (hI : m3.I.value = 0)
    (hk : k = 0 ∨ k = 1 ∨ k = 2) (hOp : (m3.IR.value >>> 12) &&& 7 = k) (fuel : Nat) :
    ∃ r, Machine.step_instruction_go (fuel + 2) m3 = some r ∧
      r.1.SC.value = 0 ∧ r.1.instr_count = m3.instr_count + 1 := by
  have hk4 : k = 0 ∨ k = 1 ∨ k = 2 ∨ k = 6 := by omega
  obtain ⟨hS4, hSC4, hDR4, hAR4, hAC4, hIR4, hI4, hPC4, hic4, hcy4, hdata4, hW4⟩ :=
    Machine.step_cycle_memref_load m3 k 0 hW hS (Or.inl rfl) hSC hI hk4 hOp
  obtain ⟨hS0, hSC0, hic, hcy⟩ :=
    Machine.step_cycle_alu_finish (m3.step_cycle).1 k 0 hW4 hS4 (Or.inl rfl) hSC4
      (by rw [hI4, hI]) hk (by rw [hIR4]; exact hOp)
  refine ⟨(m3.step_cycle).1.step_cycle, ?_, hSC0, by rw [hic, hic4]⟩
  rw [show fuel + 2 = (fuel + 1) + 1 by omega,
    Machine.step_instruction_go_step (fuel + 1) m3 (by rw [hS4]; omega) (by rw [hSC4]; omega),
    Machine.step_instruction_go_stop fuel _ hSC0]

/-- BSA direct execution from T3: two more cycles complete. -/
lemma Machine.exec_bsa_direct (m3 : Machine) (hW : m3.wfBits)
    (hS : m3.S.value = 1) (hSC : m3.SC.value = 3) (hI : m3.I.value = 0)
    (hOp : (m3.IR.value >>> 12) &&& 7 = 5) (fuel : Nat) :
    ∃ r, Machine.step_instruction_go (fuel + 2) m3 = some r ∧
      r.1.SC.value = 0 ∧ r.1.instr_count = m3.instr_count + 1 := by
  obtain ⟨hS4, hSC4, hIR4, hI4, hic4, hcy4, hW4⟩ :=
    Machine.step_cycle_bsa_write m3 0 hW hS (Or.inl rfl) hSC hI hOp
  obtain ⟨hS0, hSC0, hic, hcy⟩ :=
    Machine.step_cycle_bsa_finish (m3.step_cycle).1 0 hW4 hS4 (Or.inl rfl) hSC4
      (by rw [hI4, hI]) (by rw [hIR4]; exact hOp)
  refine ⟨(m3.step_cycle).1.step_cycle, ?_, hSC0, by rw [hic, hic4]⟩
  rw [show fuel + 2 = (fuel + 1) + 1 by omega,
    Machine.step_instruction_go_step (fuel + 1) m3 (by rw [hS4]; omega) (by rw [hSC4]; omega),
    Machine.step_instruction_go_stop fuel _ hSC0]

/-- ISZ direct execution from T3: three more cycles complete. -/
lemma Machine.exec_isz_direct (m3 : Machine) (hW : m3.wfBits)
    (hS : m3.S.value = 1) (hSC : m3.SC.value = 3) (hI : m3.I.value = 0)
    (hOp : (m3.IR.value >>> 12) &&& 7 = 6) (fuel : Nat) :
    ∃ r, Machine.step_instruction_go (fuel + 3) m3 = some r ∧
      r.1.SC.value = 0 ∧ r.1.instr_count = m3.instr_count + 1 := by
  obtain ⟨hS4, hSC4, hDR4, hAR4, hAC4, hIR4, hI4, hPC4, hic4, hcy4, hdata4, hW4⟩ :=
    Machine.step_cycle_memref_load m3 6 0 hW hS (Or.inl rfl) hSC hI (by omega) hOp
  obtain ⟨hS5, hSC5, hIR5, hI5, hic5, hcy5, hW5⟩ :=
    Machine.step_cycle_isz_incr (m3.step_cycle).1 0 hW4 hS4 (Or.inl rfl) hSC4
      (by rw [hI4, hI]) (by rw [hIR4]; exact hOp)
  obtain ⟨hS0, hSC0, hic, hcy⟩ :=
    Machine.step_cycle_isz_finish ((m3.step_cycle).1.step_cycle).1 0 hW5 hS5 (Or.inl rfl) hSC5
      (by rw [hI5, hI4, hI]) (by rw [hIR5, hIR4]; exact hOp)
  refine ⟨((m3.step_cycle).1.step_cycle).1.step_cycle, ?_, hSC0, by rw [hic, hic5, hic4]⟩
  rw [show fuel + 3 = (fuel + 2) + 1 by omega,
    Machine.step_instruction_go_step (fuel + 2) m3 (by rw [hS4]; omega) (by rw [hSC4]; omega),
    show fuel + 2 = (fuel + 1) + 1 by omega,
    Machine.step_instruction_go_step (fuel + 1) _ (by rw [hS5]; omega) (by rw [hSC5]; omega),
    Machine.step_instruction_go_stop fuel _ hSC0]

/-- STA/BUN indirect execution from T3: resolve, then one cycle completes. -/
lemma Machine.exec_sta_bun_indirect (m3 : Machine) (k : Nat) (hW : m3.wfBits)
    (hS : m3.S.value = 1) (hSC : m3.SC.value = 3) (hI : m3.I.value = 1)
    (hk : k = 3 ∨ k = 4) (hOp : (m3.IR.value >>> 12) &&& 7 = k) (fuel : Nat) :
    ∃ r, Machine.step_instruction_go (fuel + 2) m3 = some r ∧
      r.1.SC.value = 0 ∧ r.1.instr_count = m3.instr_count + 1 := by
  obtain ⟨hS4, hSC4, hAR4, hIR4, hI4, hPC4, hAC4, hic4, hcy4, hdata4, hW4⟩ :=
    Machine.step_cycle_indirect m3 hW hS hSC hI
  obtain ⟨hS0, hSC0, hic, hcy⟩ :=
    Machine.step_cycle_sta_bun_finish (m3.step_cycle).1 k 1 hW4 hS4 (Or.inr rfl) hSC4
      (by rw [hI4, hI]) hk (by rw [hIR4]; exact hOp)
  refine ⟨(m3.step_cycle).1.step_cycle, ?_, hSC0, by rw [hic, hic4]⟩
  rw [show fuel + 2 = (fuel + 1) + 1 by omega,
    Machine.step_instruction_go_step (fuel + 1) m3 (by rw [hS4]; omega) (by rw [hSC4]; omega),
    Machine.step_instruction_go_stop fuel _ hSC0]

/-- AND/ADD/LDA indirect execution from T3: resolve, then two cycles. -/
lemma Machine.exec_alu_indirect (m3 : Machine) (k : Nat) (hW : m3.wfBits)
    (hS : m3.S.value = 1) (hSC : m3.SC.value = 3) (hI : m3.I.value = 1)
    (hk : k = 0 ∨ k = 1 ∨ k = 2) (hOp : (m3.IR.value >>> 12) &&& 7 = k) (fuel : Nat) :
    ∃ r, Machine.step_instruction_go (fuel + 3) m3 = some r ∧
      r.1.SC.value = 0 ∧ r.1.instr_count = m3.instr_count + 1 := by
  have hk4 : k = 0 ∨ k = 1 ∨ k = 2 ∨ k = 6 := by omega
  obtain ⟨hS4, hSC4, hAR4, hIR4, hI4, hPC4, hAC4, hic4, hcy4, hdata4, hW4⟩ :=
    Machine.step_cycle_indirect m3 hW hS hSC hI
  obtain ⟨hS5, hSC5, hDR5, hAR5, hAC5, hIR5, hI5, hPC5, hic5, hcy5, hdata5, hW5⟩ :=
    Machine.step_cycle_memref_load (m3.step_cycle).1 k 1 hW4 hS4 (Or.inr rfl) hSC4
      (by rw [hI4, hI]) hk4 (by rw [hIR4]; exact hOp)
  obtain ⟨hS0, hSC0, hic, hcy⟩ :=
    Machine.step_cycle_alu_finish ((m3.step_cycle).1.step_cycle).1 k 1 hW5 hS5 (Or.inr rfl) hSC5
      (by rw [hI5, hI4, hI]) hk (by rw [hIR5, hIR4]; exact hOp)
  refine ⟨((m3.step_cycle).1.step_cycle).1.step_cycle, ?_, hSC0, by rw [hic, hic5, hic4]⟩
  rw [show fuel + 3 = (fuel + 2) + 1 by omega,
    Machine.step_instruction_go_step (fuel + 2) m3 (by rw [hS4]; omega) (by rw [hSC4]; omega),
    show fuel + 2 = (fuel + 1) + 1 by omega,
    Machine.step_instruction_go_step (fuel + 1) _ (by rw [hS5]; omega) (by rw [hSC5]; omega),
    Machine.step_instruction_go_stop fuel _ hSC0]

/-- BSA indirect execution from T3: resolve, write, jump. -/
lemma Machine.exec_bsa_indirect (m3 : Machine) (hW : m3.wfBits)
    (hS : m3.S.value = 1) (hSC : m3.SC.value = 3) (hI : m3.I.value = 1)
    (hOp : (m3.IR.value >>> 12) &&& 7 = 5) (fuel : Nat) :
    ∃ r, Machine.step_instruction_go (fuel + 3) m3 = some r ∧
      r.1.SC.value = 0 ∧ r.1.instr_count = m3.instr_count + 1 := by
  obtain ⟨hS4, hSC4, hAR4, hIR4, hI4, hPC4, hAC4, hic4, hcy4, hdata4, hW4⟩ :=
    Machine.step_cycle_indirect m3 hW hS hSC hI
  obtain ⟨hS5, hSC5, hIR5, hI5, hic5, hcy5, hW5⟩ :=
    Machine.step_cycle_bsa_write (m3.step_cycle).1 1 hW4 hS4 (Or.inr rfl) hSC4
      (by rw [hI4, hI]) (by rw [hIR4]; exact hOp)
  obtain ⟨hS0, hSC0, hic, hcy⟩ :=
    Machine.step_cycle_bsa_finish ((m3.step_cycle).1.step_cycle).1 1 hW5 hS5 (Or.inr rfl) hSC5
      (by rw [hI5, hI4, hI]) (by rw [hIR5, hIR4]; exact hOp)
  refine ⟨((m3.step_cycle).1.step_cycle).1.step_cycle, ?_, hSC0, by rw [hic, hic5, hic4]⟩
  rw [show fuel + 3 = (fuel + 2) + 1 by omega,
    Machine.step_instruction_go_step (fuel + 2) m3 (by rw [hS4]; omega) (by rw [hSC4]; omega),
    show fuel + 2 = (fuel + 1) + 1 by omega,
    Machine.step_instruction_go_step (fuel + 1) _ (by rw [hS5]; omega) (by rw [hSC5]; omega),
    Machine.step_instruction_go_stop fuel _ hSC0]

/-- ISZ indirect execution from T3: resolve, fetch, increment, store. -/
lemma Machine.exec_isz_indirect (m3 : Machine) (hW : m3.wfBits)
    (hS : m3.S.value = 1) (hSC : m3.SC.value = 3) (hI : m3.I.value = 1)
    (hOp : (m3.IR.value >>> 12) &&& 7 = 6) (fuel : Nat) :
    ∃ r, Machine.step_instruction_go (fuel + 4) m3 = some r ∧
      r.1.SC.value = 0 ∧ r.1.instr_count = m3.instr_count + 1 := by
  obtain ⟨hS4, hSC4, hAR4, hIR4, hI4, hPC4, hAC4, hic4, hcy4, hdata4, hW4⟩ :=
    Machine.step_cycle_indirect m3 hW hS hSC hI
  obtain ⟨hS5, hSC5, hDR5, hAR5, hAC5, hIR5, hI5, hPC5, hic5, hcy5, hdata5, hW5⟩ :=
    Machine.step_cycle_memref_load (m3.step_cycle).1 6 1 hW4 hS4 (Or.inr rfl) hSC4
      (by rw [hI4, hI]) (by omega) (by rw [hIR4]; exact hOp)
  obtain ⟨hS6, hSC6, hIR6, hI6, hic6, hcy6, hW6⟩ :=
    Machine.step_cycle_isz_incr ((m3.step_cycle).1.step_cycle).1 1 hW5 hS5 (Or.inr rfl) hSC5
      (by rw [hI5, hI4, hI]) (by rw [hIR5, hIR4]; exact hOp)
  obtain ⟨hS0, hSC0, hic, hcy⟩ :=
    Machine.step_cycle_isz_finish (((m3.step_cycle).1.step_cycle).1.step_cycle).1 1 hW6 hS6
      (Or.inr rfl) hSC6 (by rw [hI6, hI5, hI4, hI]) (by rw [hIR6, hIR5, hIR4]; exact hOp)
  refine ⟨(((m3.step_cycle).1.step_cycle).1.step_cycle).1.step_cycle, ?_, hSC0,
    by rw [hic, hic6, hic5, hic4]⟩
  rw [show fuel + 4 = (fuel + 3) + 1 by omega,
    Machine.step_instruction_go_step (fuel + 3) m3 (by rw [hS4]; omega) (by rw [hSC4]; omega),
    show fuel + 3 = (fuel + 2) + 1 by omega,
    Machine.step_instruction_go_step (fuel + 2) _ (by rw [hS5]; omega) (by rw [hSC5]; omega),
    show fuel + 2 = (fuel + 1) + 1 by omega,
    Machine.step_instruction_go_step (fuel + 1) _ (by rw [hS6]; omega) (by rw [hSC6]; omega),
    Machine.step_instruction_go_stop fuel _ hSC0]

/-- C7: for every opcode family (memory-reference opcodes 0-6, direct or
indirect, and the register-reference family), `step_instruction` started at
T-state 0 with S = 1 and given the family's documented maximum T-state count
as fuel terminates with SC back at 0 and `instr_count` incremented by
exactly one (the loop stops at the first cycle where SC returns to 0, so no
further increment can have happened). -/
theorem C7_instruction_completion (m : Machine) (hW : m.wfBits) (hS : m.S.value = 1)
    (hSC : m.SC.value = 0)
    (hreg : ((m.memory.data (m.PC.value % 4096) % 65536) >>> 12) &&& 7 = 7 →
      ((m.memory.data (m.PC.value % 4096) % 65536) >>> 15) % 2 = 0) :
    Option.map (fun r => (r.1.SC.value, r.1.instr_count))
        (m.step_instruction
          (specMaxTStates (((m.memory.data (m.PC.value % 4096) % 65536) >>> 12) &&& 7))) =
      some (0, m.instr_count + 1) := by
  obtain ⟨m3, hgo, hS3, hSC3, hIR3, hI3, hic3, hW3⟩ := Machine.fetch_phase m hW hS hSC
  set opc := ((m.memory.data (m.PC.value % 4096) % 65536) >>> 12) &&& 7 with hopc
  set ind := ((m.memory.data (m.PC.value % 4096) % 65536) >>> 15) % 2 with hind
  have h7 : opc ≤ 7 := hopc ▸ Nat.and_le_right
  have hi2 : ind = 0 ∨ ind = 1 := by omega
  have hsi : ∀ f, m.step_instruction f = Machine.step_instruction_go f m := by
    intro f; simp [Machine.step_instruction, hS]
  have hIop : (m3.IR.value >>> 12) &&& 7 = opc := by rw [hIR3]
  have hcase : opc = 0 ∨ opc = 1 ∨ opc = 2 ∨ opc = 3 ∨ opc = 4 ∨ opc = 5 ∨ opc = 6 ∨
      opc = 7 := by omega
  rw [hsi]
  rcases hcase with h | h | h | h | h | h | h | h
  · rcases hi2 with hi | hi
    · obtain ⟨r, her, hrsc, hric⟩ := Machine.exec_alu_direct m3 0 hW3 hS3 hSC3
        (by rw [hI3]; exact hi) (by omega) (by rw [hIop, h]) 1
      norm_num at her
      rw [h]; norm_num [specMaxTStates]
      rw [show (6 : Nat) = 3 + 3 from by norm_num, hgo 3, her]
      exact ⟨r.1, ⟨r.2.1, r.2.2, rfl⟩, hrsc, by rw [hric, hic3]⟩
    · obtain ⟨r, her, hrsc, hric⟩ := Machine.exec_alu_indirect m3 0 hW3 hS3 hSC3
        (by rw [hI3]; exact hi) (by omega) (by rw [hIop, h]) 0
      norm_num at her
      rw [h]; norm_num [specMaxTStates]
      rw [show (6 : Nat) = 3 + 3 from by norm_num, hgo 3, her]
      exact ⟨r.1, ⟨r.2.1, r.2.2, rfl⟩, hrsc, by rw [hric, hic3]⟩
  · rcases hi2 with hi | hi
    · obtain ⟨r, her, hrsc, hric⟩ := Machine.exec_alu_direct m3 1 hW3 hS3 hSC3
        (by rw [hI3]; exact hi) (by omega) (by rw [hIop, h]) 1
      norm_num at her
      rw [h]; norm_num [specMaxTStates]
      rw [show (6 : Nat) = 3 + 3 from by norm_num, hgo 3, her]
      exact ⟨r.1, ⟨r.2.1, r.2.2, rfl⟩, hrsc, by rw [hric, hic3]⟩
    · obtain ⟨r, her, hrsc, hric⟩ := Machine.exec_alu_indirect m3 1 hW3 hS3 hSC3
        (by rw [hI3]; exact hi) (by omega) (by rw [hIop, h]) 0
      norm_num at her
      rw [h]; norm_num [specMaxTStates]
      rw [show (6 : Nat) = 3 + 3 from by norm_num, hgo 3, her]
      exact ⟨r.1, ⟨r.2.1, r.2.2, rfl⟩, hrsc, by rw [hric, hic3]⟩
  · rcases hi2 with hi | hi
    · obtain ⟨r, her, hrsc, hric⟩ := Machine.exec_alu_direct m3 2 hW3 hS3 hSC3
        (by rw [hI3]; exact hi) (by omega) (by rw [hIop, h]) 1
      norm_num at her
      rw [h]; norm_num [specMaxTStates]
      rw [show (6 : Nat) = 3 + 3 from by norm_num, hgo 3, her]
      exact ⟨r.1, ⟨r.2.1, r.2.2, rfl⟩, hrsc, by rw [hric, hic3]⟩
    · obtain ⟨r, her, hrsc, hric⟩ := Machine.exec_alu_indirect m3 2 hW3 hS3 hSC3
        (by rw [hI3]; exact hi) (by omega) (by rw [hIop, h]) 0
      norm_num at her
      rw [h]; norm_num [specMaxTStates]
      rw [show (6 : Nat) = 3 + 3 from by norm_num, hgo 3, her]
      exact ⟨r.1, ⟨r.2.1, r.2.2, rfl⟩, hrsc, by rw [hric, hic3]⟩
  · rcases hi2 with hi | hi
    · obtain ⟨r, her, hrsc, hric⟩ := Machine.exec_sta_bun_direct m3 3 hW3 hS3 hSC3
        (by rw [hI3]; exact hi) (by omega) (by rw [hIop, h]) 1
      norm_num at her
      rw [h]; norm_num [specMaxTStates]
      rw [show (5 : Nat) = 2 + 3 from by norm_num, hgo 2, her]
      exact ⟨r.1, ⟨r.2.1, r.2.2, rfl⟩, hrsc, by rw [hric, hic3]⟩
    · obtain ⟨r, her, hrsc, hric⟩ := Machine.exec_sta_bun_indirect m3 3 hW3 hS3 hSC3
        (by rw [hI3]; exact hi) (by omega) (by rw [hIop, h]) 0
      norm_num at her
      rw [h]; norm_num [specMaxTStates]
      rw [show (5 : Nat) = 2 + 3 from by norm_num, hgo 2, her]
      exact ⟨r.1, ⟨r.2.1, r.2.2, rfl⟩, hrsc, by rw [hric, hic3]⟩
  · rcases hi2 with hi | hi
    · obtain ⟨r, her, hrsc, hric⟩ := Machine.exec_sta_bun_direct m3 4 hW3 hS3 hSC3
        (by rw [hI3]; exact hi) (by omega) (by rw [hIop, h]) 1
      norm_num at her
      rw [h]; norm_num [specMaxTStates]
      rw [show (5 : Nat) = 2 + 3 from by norm_num, hgo 2, her]
      exact ⟨r.1, ⟨r.2.1, r.2.2, rfl⟩, hrsc, by rw [hric, hic3]⟩
    · obtain ⟨r, her, hrsc, hric⟩ := Machine.exec_sta_bun_indirect m3 4 hW3 hS3 hSC3
        (by rw [hI3]; exact hi) (by omega) (by rw [hIop, h]) 0
      norm_num at her
      rw [h]; norm_num [specMaxTStates]
      rw [show (5 : Nat) = 2 + 3 from by norm_num, hgo 2, her]
      exact ⟨r.1, ⟨r.2.1, r.2.2, rfl⟩, hrsc, by rw [hric, hic3]⟩
  · rcases hi2 with hi | hi
    · obtain ⟨r, her, hrsc, hric⟩ := Machine.exec_bsa_direct m3 hW3 hS3 hSC3
        (by rw [hI3]; exact hi) (by rw [hIop, h]) 1
      norm_num at her
      rw [h]; norm_num [specMaxTStates]
      rw [show (6 : Nat) = 3 + 3 from by norm_num, hgo 3, her]
      exact ⟨r.1, ⟨r.2.1, r.2.2, rfl⟩, hrsc, by rw [hric, hic3]⟩
    · obtain ⟨r, her, hrsc, hric⟩ := Machine.exec_bsa_indirect m3 hW3 hS3 hSC3
        (by rw [hI3]; exact hi) (by rw [hIop, h]) 0
      norm_num at her
      rw [h]; norm_num [specMaxTStates]
      rw [show (6 : Nat) = 3 + 3 from by norm_num, hgo 3, her]
      exact ⟨r.1, ⟨r.2.1, r.2.2, rfl⟩, hrsc, by rw [hric, hic3]⟩
  · rcases hi2 with hi | hi
    · obtain ⟨r, her, hrsc, hric⟩ := Machine.exec_isz_direct m3 hW3 hS3 hSC3
        (by rw [hI3]; exact hi) (by rw [hIop, h]) 1
      norm_num at her
      rw [h]; norm_num [specMaxTStates]
      rw [show (7 : Nat) = 4 + 3 from by norm_num, hgo 4, her]
      exact ⟨r.1, ⟨r.2.1, r.2.2, rfl⟩, hrsc, by rw [hric, hic3]⟩
    · obtain ⟨r, her, hrsc, hric⟩ := Machine.exec_isz_indirect m3 hW3 hS3 hSC3
        (by rw [hI3]; exact hi) (by rw [hIop, h]) 0
      norm_num at her
      rw [h]; norm_num [specMaxTStates]
      rw [show (7 : Nat) = 4 + 3 from by norm_num, hgo 4, her]
      exact ⟨r.1, ⟨r.2.1, r.2.2, rfl⟩, hrsc, by rw [hric, hic3]⟩
  · have hi0 : ind = 0 := hreg (hopc ▸ h)
    obtain ⟨r, her, hrsc, hric⟩ := Machine.exec_regref m3 hS3 hSC3
      (by rw [hI3]; exact hi0) (by rw [hIop, h]) 0
    norm_num at her
    rw [h]; norm_num [specMaxTStates]
    rw [show (4 : Nat) = 1 + 3 from by norm_num, hgo 1, her]
    exact ⟨r.1, ⟨r.2.1, r.2.2, rfl⟩, hrsc, by rw [hric, hic3]⟩

/-! ### Claim theorems -/

lemma Register.applyOp_bits (r : Register) (op : RegOp) : (r.applyOp op).bits = r.bits := by
  cases op <;> rfl

lemma Register.applyOp_value_lt (r : Register) (op : RegOp) (h : r.value < 2 ^ r.bits) :
    (r.applyOp op).value < 2 ^ r.bits := by
  have hpos : 0 < 2 ^ r.bits := Nat.pos_pow_of_pos _ (by omega)
  cases op with
  | load v => exact Register.load_value_lt r v
  | increment => exact Nat.mod_lt _ hpos
  | clear => exact hpos
  | resetState => exact h

lemma Register.foldl_applyOp_bits (ops : List RegOp) (r : Register) :
    (ops.foldl Register.applyOp r).bits = r.bits := by
  induction ops generalizing r with
  | nil => rfl
  | cons op ops ih => rw [List.foldl_cons, ih, Register.applyOp_bits]

lemma Register.foldl_applyOp_value_lt (ops : List RegOp) (r : Register)
    (h : r.value < 2 ^ r.bits) :
    (ops.foldl Register.applyOp r).value < 2 ^ (ops.foldl Register.applyOp r).bits := by
  induction ops generalizing r with
  | nil => simpa using h
  | cons op ops ih =>
    rw [List.foldl_cons]
    exact ih (r.applyOp op) (by rw [Register.applyOp_bits]; exact r.applyOp_value_lt op h)

/-- C8: every `Register` operation keeps the value in `[0, 2^width - 1]`:
`load v` stores exactly `v mod 2^w` for every `v < 2^32`, `increment` wraps
modulo `2^w`, `clear` stores 0, and no sequence of operations applied to a
freshly constructed register can leave an out-of-range value. -/
theorem C8_register_masking :
    (∀ (r : Register) (v : Nat), v < 2 ^ 32 → (r.load (v : Int)).value = v % 2 ^ r.bits) ∧
    (∀ r : Register, r.increment.value = (r.value + 1) % 2 ^ r.bits) ∧
    (∀ r : Register, r.clear.value = 0) ∧
    (∀ (name : String) (w : Nat) (ops : List RegOp),
      (ops.foldl Register.applyOp (Register.init name w)).value ≤ 2 ^ w - 1) := by
  refine ⟨fun r v _ => Register.load_value_nat r v, fun r => rfl, fun r => rfl, ?_⟩
  intro name w ops
  have hv := Register.foldl_applyOp_value_lt ops (Register.init name w)
    (by simp [Register.init])
  rw [Register.foldl_applyOp_bits ops (Register.init name w)] at hv
  have hbw : (Register.init name w).bits = w := rfl
  rw [hbw] at hv
  omega

/-- C8 witness at a concrete input: a 16-bit register loaded with 70000
(< 2^32) holds 70000 mod 2^16 = 4464, and a concrete operation sequence
stays in range. -/
theorem C8_witness :
    (70000 < 2 ^ 32 ∧ ((Register.init "AC" 16).load ((70000 : Nat) : Int)).value =
      70000 % 2 ^ (Register.init "AC" 16).bits) ∧
    ([RegOp.load 70000, RegOp.increment, RegOp.resetState].foldl Register.applyOp
      (Register.init "AC" 16)).value ≤ 2 ^ 16 - 1 :=
  ⟨⟨by norm_num, C8_register_masking.1 (Register.init "AC" 16) 70000 (by norm_num)⟩,
    C8_register_masking.2.2.2 "AC" 16 [RegOp.load 70000, RegOp.increment, RegOp.resetState]⟩

/-- C5: the ADD execution step (direct mode reaches it at T4) sets
`AC ← (AC + DR) mod 2^16` and `E ← 1` iff the unmasked sum exceeds 0xFFFF,
for every pair of 16-bit values in AC and DR. -/
theorem C5_add_carry (m : Machine) (hW : m.wfBits) (hS : m.S.value = 1)
    (hSC : m.SC.value = 4) (hI : m.I.value = 0)
    (hOp : (m.IR.value >>> 12) &&& 7 = 1)
    (_hac : m.AC.value < 65536) (_hdr : m.DR.value < 65536) :
    (m.step_cycle).1.AC.value = (m.AC.value + m.DR.value) % 65536 ∧
    (m.step_cycle).1.E.value = (if m.AC.value + m.DR.value > 65535 then 1 else 0) := by
  obtain ⟨h1, h2, h3, h4, h5, h6, h7⟩ := hW
  have h65536 : (2 : Nat) ^ 16 = 65536 := by norm_num
  by_cases hc : m.AC.value + m.DR.value > 65535 <;>
    simp [Machine.step_cycle, InstructionSet.execute_memory_ref, InstructionSet.mem_ADD,
      hS, hSC, hI, hOp, hc, h1, h2, h3, h4, h5, h6, h7, h65536]

/-- Concrete ADD machine with AC = 0xFFFF, DR = 0x0001, poised at T4 of a
direct ADD. -/
def c5a : Machine :=
  { Machine.init with
      SC := Machine.init.SC.load 4
      IR := Machine.init.IR.load 0x1003
      AC := Machine.init.AC.load 0xFFFF
      DR := Machine.init.DR.load 1 }

/-- Concrete ADD machine with AC = 0x0001, DR = 0x0001. -/
def c5b : Machine :=
  { Machine.init with
      SC := Machine.init.SC.load 4
      IR := Machine.init.IR.load 0x1003
      AC := Machine.init.AC.load 1
      DR := Machine.init.DR.load 1 }

/-- C5 witness: ADD with AC = 0xFFFF, DR = 1 yields AC = 0, E = 1; ADD with
AC = 1, DR = 1 yields AC = 2, E = 0. -/
theorem C5_witness :
    ((c5a.step_cycle).1.AC.value = (c5a.AC.value + c5a.DR.value) % 65536 ∧
     (c5a.step_cycle).1.E.value = (if c5a.AC.value + c5a.DR.value > 65535 then 1 else 0)) ∧
    ((c5b.step_cycle).1.AC.value = (c5b.AC.value + c5b.DR.value) % 65536 ∧
     (c5b.step_cycle).1.E.value = (if c5b.AC.value + c5b.DR.value > 65535 then 1 else 0)) ∧
    (c5a.step_cycle).1.AC.value = 0 ∧ (c5a.step_cycle).1.E.value = 1 ∧
    (c5b.step_cycle).1.AC.value = 2 ∧ (c5b.step_cycle).1.E.value = 0 :=
  ⟨C5_add_carry c5a (by decide) (by decide) (by decide) (by decide) (by decide)
      (by decide) (by decide),
   C5_add_carry c5b (by decide) (by decide) (by decide) (by decide) (by decide)
      (by decide) (by decide),
   by decide, by decide, by decide, by decide⟩

/-- C6: when S = 0, a further `step_cycle` only increments `total_cycles`;
it returns the fixed halted trace with an empty changed set and leaves every
register value, flag value, the whole memory (cells and counters) and
`instr_count` unchanged. -/
theorem C6_halted_frame (m : Machine) (hS : m.S.value = 0) :
    (m.step_cycle).1.AR.value = m.AR.value ∧
    (m.step_cycle).1.PC.value = m.PC.value ∧
    (m.step_cycle).1.DR.value = m.DR.value ∧
    (m.step_cycle).1.AC.value = m.AC.value ∧
    (m.step_cycle).1.IR.value = m.IR.value ∧
    (m.step_cycle).1.TR.value = m.TR.value ∧
    (m.step_cycle).1.SC.value = m.SC.value ∧
    (m.step_cycle).1.E.value = m.E.value ∧
    (m.step_cycle).1.I.value = m.I.value ∧
    (m.step_cycle).1.S.value = m.S.value ∧
    (m.step_cycle).1.R.value = m.R.value ∧
    (m.step_cycle).1.IEN.value = m.IEN.value ∧
    (m.step_cycle).1.FGI.value = m.FGI.value ∧
    (m.step_cycle).1.FGO.value = m.FGO.value ∧
    (m.step_cycle).1.memory = m.memory ∧
    (m.step_cycle).1.instr_count = m.instr_count ∧
    (m.step_cycle).1.total_cycles = m.total_cycles + 1 ∧
    (m.step_cycle).2.1 = "CPU halted (HLT executed)" ∧
    (m.step_cycle).2.2 = ([] : List String) := by
  simp [Machine.step_cycle, hS]

/-- A freshly constructed machine with S forced to 0. -/
def c6m : Machine := { Machine.init with S := Machine.init.S.clear }

/-- C6 witness: the halted frame property at a concrete halted machine. -/
theorem C6_witness :
    (c6m.step_cycle).1.AR.value = c6m.AR.value ∧
    (c6m.step_cycle).1.PC.value = c6m.PC.value ∧
    (c6m.step_cycle).1.DR.value = c6m.DR.value ∧
    (c6m.step_cycle).1.AC.value = c6m.AC.value ∧
    (c6m.step_cycle).1.IR.value = c6m.IR.value ∧
    (c6m.step_cycle).1.TR.value = c6m.TR.value ∧
    (c6m.step_cycle).1.SC.value = c6m.SC.value ∧
    (c6m.step_cycle).1.E.value = c6m.E.value ∧
    (c6m.step_cycle).1.I.value = c6m.I.value ∧
    (c6m.step_cycle).1.S.value = c6m.S.value ∧
    (c6m.step_cycle).1.R.value = c6m.R.value ∧
    (c6m.step_cycle).1.IEN.value = c6m.IEN.value ∧
    (c6m.step_cycle).1.FGI.value = c6m.FGI.value ∧
    (c6m.step_cycle).1.FGO.value = c6m.FGO.value ∧
    (c6m.step_cycle).1.memory = c6m.memory ∧
    (c6m.step_cycle).1.instr_count = c6m.instr_count ∧
    (c6m.step_cycle).1.total_cycles = c6m.total_cycles + 1 ∧
    (c6m.step_cycle).2.1 = "CPU halted (HLT executed)" ∧
    (c6m.step_cycle).2.2 = ([] : List String) :=
  C6_halted_frame c6m (by decide)

/-- C7 witness: a freshly constructed machine (whose next word is 0, an AND
with direct addressing) completes one instruction within the documented
6-state budget, with SC back at 0 and instr_count = 1. -/
theorem C7_witness :
    Option.map (fun r => (r.1.SC.value, r.1.instr_count))
        (Machine.init.step_instruction
          (specMaxTStates
            (((Machine.init.memory.data (Machine.init.PC.value % 4096) % 65536) >>> 12) &&&
              7))) =
      some (0, Machine.init.instr_count + 1) :=
  C7_instruction_completion Machine.init (by decide) (by decide) (by decide) (by decide)

/-- A machine poised at T3 of a direct LDA 003 (IR = 0x2003, AR = 3, I = 0)
with M[3] = 0xFF. -/
def c2m : Machine :=
  { Machine.init with
      SC := Machine.init.SC.load 3
      IR := Machine.init.IR.load 0x2003
      AR := Machine.init.AR.load 3
      memory := Machine.init.memory.write 3 0xFF }

/-- C2 counterexample: the claim says that with I = 0 the T3 cycle performs
no data movement and AND/ADD/LDA complete at T5; on this machine the T3
cycle already moves M[AR] = 0xFF into DR, and the very next cycle (T4)
completes the instruction. -/
theorem C2_counterexample :
    c2m.DR.value = 0 ∧
    (c2m.step_cycle).1.DR.value = 255 ∧
    (c2m.step_cycle).1.SC.value = 4 ∧
    ((c2m.step_cycle).1.step_cycle).1.SC.value = 0 ∧
    ((c2m.step_cycle).1.step_cycle).1.instr_count = 1 ∧
    ((c2m.step_cycle).1.step_cycle).1.AC.value = 255 := by decide

/-- C2 (amended): with I = 0 the opcode-specific micro-operations begin at
T3: AND/ADD/LDA perform `DR ← M[AR]` at T3 and complete (SC reset,
instr_count incremented) at T4; STA performs `M[AR] ← AC` at T3 and
completes at T3. -/
theorem C2_direct_timing (m : Machine) (k : Nat) (hW : m.wfBits) (hS : m.S.value = 1)
    (hSC : m.SC.value = 3) (hI : m.I.value = 0)
    (hOp : (m.IR.value >>> 12) &&& 7 = k) :
    (k = 0 ∨ k = 1 ∨ k = 2 →
      (m.step_cycle).1.DR.value = m.memory.data (m.AR.value % 4096) % 65536 ∧
      (m.step_cycle).1.SC.value = 4 ∧
      (m.step_cycle).1.instr_count = m.instr_count ∧
      ((m.step_cycle).1.step_cycle).1.SC.value = 0 ∧
      ((m.step_cycle).1.step_cycle).1.instr_count = m.instr_count + 1) ∧
    (k = 3 →
      (∀ x : Nat, (m.step_cycle).1.memory.data x =
        if x = m.AR.value % 4096 then m.AC.value % 65536 else m.memory.data x) ∧
      (m.step_cycle).1.SC.value = 0 ∧
      (m.step_cycle).1.instr_count = m.instr_count + 1) := by
  constructor
  · intro hk
    have hk4 : k = 0 ∨ k = 1 ∨ k = 2 ∨ k = 6 := by omega
    obtain ⟨hS4, hSC4, hDR4, hAR4, hAC4, hIR4, hI4, hPC4, hic4, hcy4, hdata4, hW4⟩ :=
      Machine.step_cycle_memref_load m k 0 hW hS (Or.inl rfl) hSC hI hk4 hOp
    obtain ⟨hS0, hSC0, hic, hcy⟩ :=
      Machine.step_cycle_alu_finish (m.step_cycle).1 k 0 hW4 hS4 (Or.inl rfl) hSC4
        (by rw [hI4, hI]) hk (by rw [hIR4]; exact hOp)
    exact ⟨hDR4, hSC4, hic4, hSC0, by rw [hic, hic4]⟩
  · intro hk; subst hk
    obtain ⟨h1, h2, h3, h4, h5, h6, h7⟩ := hW
    refine ⟨fun x => ?_, ?_, ?_⟩ <;>
      simp [Machine.step_cycle, InstructionSet.execute_memory_ref, InstructionSet.mem_STA,
        Memory.write, Memory.mask_addr, hS, hSC, hI, hOp, h1, h2, h3, h4, h5, h6, h7]

/-- C2 witness: the amended direct-mode timing at the concrete LDA machine
`c2m`. -/
theorem C2_witness :
    (c2m.step_cycle).1.DR.value = c2m.memory.data (c2m.AR.value % 4096) % 65536 ∧
    (c2m.step_cycle).1.SC.value = 4 ∧
    (c2m.step_cycle).1.instr_count = c2m.instr_count ∧
    ((c2m.step_cycle).1.step_cycle).1.SC.value = 0 ∧
    ((c2m.step_cycle).1.step_cycle).1.instr_count = c2m.instr_count + 1 :=
  (C2_direct_timing c2m 2 (by decide) (by decide) (by decide) (by decide) (by decide)).1
    (by omega)

/-- A machine poised at T3 of a register-reference word with low 12 bits
0x820 (bits 11 and 5: CLA and INC, not CLA and HLT). -/
def c4m : Machine :=
  { Machine.init with
      SC := Machine.init.SC.load 3
      IR := Machine.init.IR.load 0x7820 }

/-- C4 counterexample: executing low bits 0x820 at T3 sets AC = 1 (CLA then
INC) and leaves S = 1 running — not AC = 0, S = 0 as the claim states
(0x820 is not the CLA + HLT combination; 0x801 is). -/
theorem C4_counterexample :
    ((c4m.step_cycle).1.AC.value = 1 ∧
     (c4m.step_cycle).1.S.value = 1 ∧
     (c4m.step_cycle).1.SC.value = 0 ∧
     (c4m.step_cycle).1.instr_count = 1) ∧
    ¬((c4m.step_cycle).1.AC.value = 0 ∧ (c4m.step_cycle).1.S.value = 0) := by decide

/-- C4 (amended): a register-reference word whose low 12 bits are 0x801
(the CLA and HLT bits) executed at T3 yields AC = 0, S = 0 and completes
(SC reset, instr_count incremented) within that single `step_cycle` call. -/
theorem C4_cla_hlt (m : Machine) (hS : m.S.value = 1) (hSC : m.SC.value = 3)
    (hI : m.I.value = 0) (hOp : (m.IR.value >>> 12) &&& 7 = 7)
    (hLow : m.IR.value % 4096 = 0x801) :
    (m.step_cycle).1.AC.value = 0 ∧
    (m.step_cycle).1.S.value = 0 ∧
    (m.step_cycle).1.SC.value = 0 ∧
    (m.step_cycle).1.instr_count = m.instr_count + 1 := by
  simp [Machine.step_cycle, InstructionSet.execute_register_ref, InstructionSet.rrBit,
    InstructionSet.rr_cla, InstructionSet.rr_cle, InstructionSet.rr_cma,
    InstructionSet.rr_cme, InstructionSet.rr_cir, InstructionSet.rr_cil,
    InstructionSet.rr_inc, InstructionSet.rr_spa, InstructionSet.rr_sna,
    InstructionSet.rr_sza, InstructionSet.rr_sze, InstructionSet.rr_hlt,
    hS, hSC, hI, hOp, hLow]

/-- A machine poised at T3 of a register-reference word with low 12 bits
0x801 (CLA and HLT). -/
def c4b : Machine :=
  { Machine.init with
      SC := Machine.init.SC.load 3
      IR := Machine.init.IR.load 0x7801 }

/-- C4 witness: the amended CLA+HLT behaviour at the concrete machine
`c4b`. -/
theorem C4_witness :
    (c4b.step_cycle).1.AC.value = 0 ∧
    (c4b.step_cycle).1.S.value = 0 ∧
    (c4b.step_cycle).1.SC.value = 0 ∧
    (c4b.step_cycle).1.instr_count = c4b.instr_count + 1 :=
  C4_cla_hlt c4b (by decide) (by decide) (by decide) (by decide) (by decide)

/-- A machine poised at T3 of a register-reference word with only the CIL
bit (bit 6) set, with AC = 0 and E = 1. -/
def c3m : Machine :=
  { Machine.init with
      SC := Machine.init.SC.load 3
      IR := Machine.init.IR.load 0x7040
      E := Machine.init.E.set }

/-- C3: rotate-left does not treat {E, AC} as a 17-bit ring in the code.
With AC = 0 and E = 1, a true 17-bit rotate-left must produce AC bit 0 =
old E = 1 and new E = old AC bit 15 = 0; the code instead computes `msb`
before shifting (so it re-stores the old E) and masks the shifted 17-bit
value back into the 16-bit AC (dropping the rotated-in bit): the result is
AC = 0, E = 1, violating both required bit equations. -/
theorem C3_cil_bug :
    ((c3m.step_cycle).1.AC.value = 0 ∧ (c3m.step_cycle).1.E.value = 1) ∧
    ¬((c3m.step_cycle).1.AC.value % 2 = c3m.E.value ∧
      (c3m.step_cycle).1.E.value = (c3m.AC.value >>> 15) % 2) := by decide

instance {e a : Type} [DecidableEq e] [DecidableEq a] : DecidableEq (Except e a) := fun x y =>
  match x, y with
  | Except.error u, Except.error v =>
    decidable_of_iff (u = v) ⟨fun h => h ▸ rfl, fun h => by cases h; rfl⟩
  | Except.error _, Except.ok _ => isFalse fun h => Except.noConfusion h
  | Except.ok _, Except.error _ => isFalse fun h => Except.noConfusion h
  | Except.ok u, Except.ok v =>
    decidable_of_iff (u = v) ⟨fun h => h ▸ rfl, fun h => by cases h; rfl⟩

/-- The program image of the end-to-end scenario: LDA 003, HLT, data word
0x00FF. -/
def c1prog : List String := ["000: 2003", "001: 7001", "003: 00FF"]

/-- The scenario machine after `load_program_and_data` with no data image. -/
def c1load : Machine × Except String Unit :=
  Machine.init.load_program_and_data (some c1prog) none

/-- The scenario run to halt (ample fuel; it halts after 2 instructions). -/
def c1run : Option (Machine × String × List String) :=
  (c1load.1).run_until_halt 4 16

/-- C1 counterexample: running the documented image to halt executes 9
clock cycles (5 for the direct LDA, 4 for fetching and executing HLT), not
the 8 the claim states. -/
theorem C1_counterexample :
    c1run.map (fun r => r.1.total_cycles) = some 9 ∧
    c1run.map (fun r => r.1.total_cycles) ≠ some 8 := by decide

/-- C1 (amended): the scenario loads successfully and runs to halt with
AC = 0x00FF, instr_count = 2 and total_cycles = 9. -/
theorem C1_scenario_cycles :
    c1load.2 = Except.ok () ∧
    c1run.map (fun r => (r.1.AC.value, r.1.instr_count, r.1.total_cycles)) =
      some (255, 2, 9) := by decide

/-- Loading a comma-separated record. -/
def c9comma : Memory × Except String (Option Nat) :=
  Memory.init.load_file (some ["001,00FF"])

/-- Loading the same record with a colon separator. -/
def c9colon : Memory × Except String (Option Nat) :=
  Memory.init.load_file (some ["001:00FF"])

/-- Loading the same record with a space separator. -/
def c9space : Memory × Except String (Option Nat) :=
  Memory.init.load_file (some ["001 00FF"])

/-- C9 counterexample: the record `001,00FF` is not loaded at all — the
comma survives the colon replacement, the line stays a single token and is
skipped, so nothing is stored at address 1 and the lowest-address result is
`none`, contrary to the claim. -/
theorem C9_counterexample :
    c9comma.1.data 1 = 0 ∧ c9comma.2 = Except.ok none := by decide

/-- C9 (amended): `load_file` accepts only `:` or whitespace as the
address/value separator.  `001:00FF` and `001 00FF` store 0x00FF at
address 1 and make 1 the lowest address; the comma-separated `001,00FF`
is silently skipped, leaving every memory cell unchanged. -/
theorem C9_separators :
    c9colon.1.data 1 = 255 ∧ c9colon.2 = Except.ok (some 1) ∧
    c9space.1.data 1 = 255 ∧ c9space.2 = Except.ok (some 1) ∧
    c9comma.2 = Except.ok none ∧
    (∀ a : Nat, c9comma.1.data a = Memory.init.data a) :=
  ⟨by decide, by decide, by decide, by decide, by decide, fun _ => rfl⟩

/-- C10: a non-blank, non-comment line with at least two tokens whose first
or second token is not a valid hex literal makes the loader return the
uncaught `ValueError` to the caller with the memory exactly as it was
before that line — the offending record and everything after it are not
loaded; only a missing file (source `none`) is caught and turned into the
absent result. -/
theorem C10_bad_hex_raises (mem : Memory) (lowest : Option Nat) (line : List Char)
    (rest : List (List Char)) (t0 t1 : List Char) (ts : List (List Char))
    (hne : ¬(pyStrip line = [] ∨ (pyStrip line).head? = some '#' ∨
      (pyStrip line).head? = some ';'))
    (htok : pySplit (replaceColonBySpace (pyStrip line)) = t0 :: t1 :: ts)
    (hbad : pyIntHex t0 = none ∨ pyIntHex t1 = none) :
    Memory.loadLinesGo mem lowest (line :: rest) =
      (mem, Except.error (errInvalid (if pyIntHex t0 = none then t0 else t1))) ∧
    mem.load_file none = (mem, Except.ok none) := by
  refine ⟨?_, rfl⟩
  rcases h0 : pyIntHex t0 with _ | a
  · simp [Memory.loadLinesGo, hne, htok, h0]
  · rcases hbad with hb | hb
    · rw [h0] at hb; cases hb
    · simp [Memory.loadLinesGo, hne, htok, h0, hb]

/-- C10 witness: the record `GG 12` (invalid first token) aborts the load
with the `ValueError`, leaving memory untouched. -/
theorem C10_witness :
    Memory.loadLinesGo Memory.init none ["GG 12".data] =
      (Memory.init,
        Except.error (errInvalid (if pyIntHex "GG".data = none then "GG".data
          else "12".data))) ∧
    Memory.init.load_file none = (Memory.init, Except.ok none) :=
  C10_bad_hex_raises Memory.init none "GG 12".data [] "GG".data "12".data []
    (by decide) (by decide) (Or.inl (by decide))

end Mano
